import Mathlib

/-!
# Verification of the GlassBox compliance SDK (Python) against its specification

Shallow embedding of the core of `src/sdks/python/glassbox/`:
hashing utilities (SHA-256 and MD5, which the source takes from `hashlib`),
a model of Python values and their `repr`/`str`/canonical-JSON forms,
the audit trail (`audit_trail.py`), the evidence manager (`evidence_manager.py`),
the DecisionBundle validator (`decision_bundle.py`), the DSL tokenizer and
evaluator (`dsl_parser.py`) and the rule engine (`rule_engine.py`).

Conventions of the embedding:
* Machine integers are `Nat` with explicit reduction `% 2^32` where the
  source's hash arithmetic wraps.
* Wall-clock readings (`datetime.now`), generated UUIDs and generated ids are
  nondeterministic inputs of the source; they are passed to the embedded
  operations as explicit arguments.
* A `datetime` object is represented by its canonical `isoformat()` string
  (CPython's `isoformat` emits a unique canonical form per instant and offset,
  and `fromisoformat` inverts it; `s.replace('Z', '+00:00')` is modelled
  faithfully as a string operation).
* Python exceptions are modelled with `Except`: raising is `.error`,
  `try/except` is matching on the result.
* Strings handled by the claims are ASCII, so `str.encode()` (UTF-8) is the
  pointwise code of each character.
-/

set_option maxRecDepth 100000

namespace GB

/-- 2^32, the modulus of the 32-bit wrapping arithmetic used by both hashes. -/
def M32 : Nat := 4294967296

/-- Right rotation of a 32-bit word. -/
def rotr32 (x n : Nat) : Nat := ((x >>> n) ||| (x <<< (32 - n))) % M32

/-- Left rotation of a 32-bit word. -/
def rotl32 (x n : Nat) : Nat := ((x <<< n) ||| (x >>> (32 - n))) % M32

/-- Bitwise complement of a 32-bit word. -/
def not32 (x : Nat) : Nat := x ^^^ 4294967295

/-- Lower-case hex digit for `n < 16`. -/
def hexDigit (n : Nat) : Char :=
  if n < 10 then Char.ofNat (48 + n) else Char.ofNat (87 + n)

/-- Fixed-width big-endian lower-case hex rendering of `x` with `d` digits. -/
def toHex (x : Nat) (d : Nat) : String :=
  String.mk ((List.range d).map (fun i => hexDigit ((x >>> (4 * (d - 1 - i))) &&& 15)))

/-- The bytes of an ASCII string (UTF-8 of ASCII is the character codes). -/
def strBytes (s : String) : List Nat := s.data.map Char.toNat

/-- `s[:n]` (string slicing by code points). -/
def strTake (s : String) (n : Nat) : String := String.mk (s.data.take n)

/-- Whether the first char list starts the second. -/
def startsChars : List Char → List Char → Bool
  | [], _ => true
  | _ :: _, [] => false
  | a :: as, b :: bs => a == b && startsChars as bs

/-- The scan of Python `s.replace(pat, rep)` (left to right, non-overlapping;
`pat` is never empty in the source's calls). -/
def replaceChars (pat rep : List Char) : Nat → List Char → List Char
  | 0, cs => cs
  | Nat.succ f, cs =>
    match cs with
    | [] => []
    | c :: rest =>
      if startsChars pat cs && !pat.isEmpty then
        rep ++ replaceChars pat rep f (cs.drop pat.length)
      else c :: replaceChars pat rep f rest

/-- Python `s.replace(pat, rep)`. -/
def replaceStr (s pat rep : String) : String :=
  String.mk (replaceChars pat.data rep.data s.data.length s.data)

/-- Python `s.split(sep)` for a single-character separator. -/
def splitOnChar (sep : Char) : List Char → List (List Char)
  | [] => [[]]
  | c :: rest =>
    let r := splitOnChar sep rest
    if c = sep then [] :: r
    else
      match r with
      | [] => [[c]]
      | g :: gs => (c :: g) :: gs

/-- Split a list into chunks of size `n` (the inputs we hash are padded to a
multiple of `n`, so every chunk is full). -/
def chunkList (n : Nat) (l : List α) : List (List α) :=
  go l (l.length)
where
  go : List α → Nat → List (List α)
  | [], _ => []
  | l, 0 => [l]
  | l, Nat.succ fuel => l.take n :: go (l.drop n) fuel

/-- Big-endian 32-bit words from a list of bytes (length a multiple of 4). -/
def bytesToWordsBE (bs : List Nat) : List Nat :=
  (chunkList 4 bs).map (fun c => c.foldl (fun acc b => acc * 256 + b) 0)

/-- Little-endian 32-bit words from a list of bytes (length a multiple of 4). -/
def bytesToWordsLE (bs : List Nat) : List Nat :=
  (chunkList 4 bs).map (fun c => c.foldr (fun b acc => acc * 256 + b) 0)

/-- Big-endian byte rendering of `x` with `n` bytes. -/
def natToBytesBE (x : Nat) (n : Nat) : List Nat :=
  (List.range n).map (fun i => (x >>> (8 * (n - 1 - i))) &&& 255)

/-- Little-endian byte rendering of `x` with `n` bytes. -/
def natToBytesLE (x : Nat) (n : Nat) : List Nat :=
  (List.range n).map (fun i => (x >>> (8 * i)) &&& 255)

/-! ## SHA-256 (FIPS 180-4), the digest behind `hashlib.sha256` -/

namespace Sha256

/-- The eight initial hash values (FIPS 180-4 §5.3.3, in decimal). -/
def iv : List Nat :=
  [1779033703, 3144134277, 1013904242, 2773480762,
   1359893119, 2600822924, 528734635, 1541459225]

/-- The 64 round constants (FIPS 180-4 §4.2.2, in decimal). -/
def kTbl : List Nat :=
  [1116352408, 1899447441, 3049323471, 3921009573, 961987163, 1508970993,
   2453635748, 2870763221, 3624381080, 310598401, 607225278, 1426881987,
   1925078388, 2162078206, 2614888103, 3248222580, 3835390401, 4022224774,
   264347078, 604807628, 770255983, 1249150122, 1555081692, 1996064986,
   2554220882, 2821834349, 2952996808, 3210313671, 3336571891, 3584528711,
   113926993, 338241895, 666307205, 773529912, 1294757372, 1396182291,
   1695183700, 1986661051, 2177026350, 2456956037, 2730485921, 2820302411,
   3259730800, 3345764771, 3516065817, 3600352804, 4094571909, 275423344,
   430227734, 506948616, 659060556, 883997877, 958139571, 1322822218,
   1537002063, 1747873779, 1955562222, 2024104815, 2227730452, 2361852424,
   2428436474, 2756734187, 3204031479, 3329325298]

def ch (x y z : Nat) : Nat := (x &&& y) ^^^ (not32 x &&& z)

def maj (x y z : Nat) : Nat := (x &&& y) ^^^ (x &&& z) ^^^ (y &&& z)

def bsig0 (x : Nat) : Nat := rotr32 x 2 ^^^ rotr32 x 13 ^^^ rotr32 x 22

def bsig1 (x : Nat) : Nat := rotr32 x 6 ^^^ rotr32 x 11 ^^^ rotr32 x 25

def ssig0 (x : Nat) : Nat := rotr32 x 7 ^^^ rotr32 x 18 ^^^ (x >>> 3)

def ssig1 (x : Nat) : Nat := rotr32 x 17 ^^^ rotr32 x 19 ^^^ (x >>> 10)

/-- Pad a message to a multiple of 64 bytes: `0x80`, zeros, 64-bit big-endian
bit length. -/
def pad (msg : List Nat) : List Nat :=
  let len := msg.length
  let zeros := (56 + 64 - (len + 1) % 64) % 64
  msg ++ [0x80] ++ List.replicate zeros 0 ++ natToBytesBE (8 * len) 8

/-- Extend 16 message words to the 64-word schedule.  The accumulator is kept
reversed, so `W[t-2]` is entry 1, `W[t-7]` entry 6, `W[t-15]` entry 14 and
`W[t-16]` entry 15. -/
def schedule (ws : List Nat) : List Nat :=
  ((List.range 48).foldl
    (fun racc _ =>
      ((ssig1 (racc.getD 1 0) + racc.getD 6 0 + ssig0 (racc.getD 14 0) + racc.getD 15 0) % M32)
        :: racc)
    ws.reverse).reverse

/-- One round of the compression function. -/
def round (st : Nat × Nat × Nat × Nat × Nat × Nat × Nat × Nat) (kw : Nat × Nat) :
    Nat × Nat × Nat × Nat × Nat × Nat × Nat × Nat :=
  match st, kw with
  | (a, b, c, d, e, f, g, h), (k, w) =>
    let t1 := (h + bsig1 e + ch e f g + k + w) % M32
    let t2 := (bsig0 a + maj a b c) % M32
    ((t1 + t2) % M32, a, b, c, (d + t1) % M32, e, f, g)

/-- Process one 64-byte block. -/
def compress (st : List Nat) (block : List Nat) : List Nat :=
  let ws := schedule (bytesToWordsBE block)
  match (kTbl.zip ws).foldl round
      (st.getD 0 0, st.getD 1 0, st.getD 2 0, st.getD 3 0,
       st.getD 4 0, st.getD 5 0, st.getD 6 0, st.getD 7 0) with
  | (a, b, c, d, e, f, g, h) =>
    [(st.getD 0 0 + a) % M32, (st.getD 1 0 + b) % M32, (st.getD 2 0 + c) % M32,
     (st.getD 3 0 + d) % M32, (st.getD 4 0 + e) % M32, (st.getD 5 0 + f) % M32,
     (st.getD 6 0 + g) % M32, (st.getD 7 0 + h) % M32]

/-- The digest state after absorbing `msg`. -/
def digestWords (msg : List Nat) : List Nat :=
  (chunkList 64 (pad msg)).foldl compress iv

end Sha256

/-- `hashlib.sha256(bytes).hexdigest()`. -/
def sha256Hex (msg : List Nat) : String :=
  String.join ((Sha256.digestWords msg).map (fun w => toHex w 8))

/-- FIPS 180-4 test vector, checking the implementation. -/
theorem sha256_abc_vector :
    sha256Hex (strBytes "abc") =
      "ba7816bf8f01cfea414140de5dae2223b00361a396177a9cb410ff61f20015ad" := by
  decide

/-! ## MD5 (RFC 1321), the digest behind `hashlib.md5` -/

namespace Md5

/-- The 64 sine-derived constants `T[i]`. -/
def tTbl : List Nat :=
  [0xd76aa478, 0xe8c7b756, 0x242070db, 0xc1bdceee,
   0xf57c0faf, 0x4787c62a, 0xa8304613, 0xfd469501,
   0x698098d8, 0x8b44f7af, 0xffff5bb1, 0x895cd7be,
   0x6b901122, 0xfd987193, 0xa679438e, 0x49b40821,
   0xf61e2562, 0xc040b340, 0x265e5a51, 0xe9b6c7aa,
   0xd62f105d, 0x02441453, 0xd8a1e681, 0xe7d3fbc8,
   0x21e1cde6, 0xc33707d6, 0xf4d50d87, 0x455a14ed,
   0xa9e3e905, 0xfcefa3f8, 0x676f02d9, 0x8d2a4c8a,
   0xfffa3942, 0x8771f681, 0x6d9d6122, 0xfde5380c,
   0xa4beea44, 0x4bdecfa9, 0xf6bb4b60, 0xbebfbc70,
   0x289b7ec6, 0xeaa127fa, 0xd4ef3085, 0x04881d05,
   0xd9d4d039, 0xe6db99e5, 0x1fa27cf8, 0xc4ac5665,
   0xf4292244, 0x432aff97, 0xab9423a7, 0xfc93a039,
   0x655b59c3, 0x8f0ccc92, 0xffeff47d, 0x85845dd1,
   0x6fa87e4f, 0xfe2ce6e0, 0xa3014314, 0x4e0811a1,
   0xf7537e82, 0xbd3af235, 0x2ad7d2bb, 0xeb86d391]

/-- The per-round left-rotation amounts `s[i]`. -/
def sTbl : List Nat :=
  [7, 12, 17, 22, 7, 12, 17, 22, 7, 12, 17, 22, 7, 12, 17, 22,
   5, 9, 14, 20, 5, 9, 14, 20, 5, 9, 14, 20, 5, 9, 14, 20,
   4, 11, 16, 23, 4, 11, 16, 23, 4, 11, 16, 23, 4, 11, 16, 23,
   6, 10, 15, 21, 6, 10, 15, 21, 6, 10, 15, 21, 6, 10, 15, 21]

/-- Round function and message-word index for round `i`. -/
def mix (i b c d : Nat) : Nat × Nat :=
  if i < 16 then ((b &&& c) ||| (not32 b &&& d), i)
  else if i < 32 then ((d &&& b) ||| (not32 d &&& c), (5 * i + 1) % 16)
  else if i < 48 then (b ^^^ c ^^^ d, (3 * i + 5) % 16)
  else (c ^^^ (b ||| not32 d), (7 * i) % 16)

/-- Pad a message to a multiple of 64 bytes: `0x80`, zeros, 64-bit
little-endian bit length. -/
def pad (msg : List Nat) : List Nat :=
  let len := msg.length
  let zeros := (56 + 64 - (len + 1) % 64) % 64
  msg ++ [0x80] ++ List.replicate zeros 0 ++ natToBytesLE (8 * len) 8

/-- Process one 64-byte block. -/
def compress (st : List Nat) (block : List Nat) : List Nat :=
  let m := bytesToWordsLE block
  match (List.range 64).foldl
      (fun acc i =>
        match acc with
        | (a, b, c, d) =>
          match mix i b c d with
          | (f, g) =>
            let f := (f + a + tTbl.getD i 0 + m.getD g 0) % M32
            (d, (b + rotl32 f (sTbl.getD i 0)) % M32, b, c))
      (st.getD 0 0, st.getD 1 0, st.getD 2 0, st.getD 3 0) with
  | (a, b, c, d) =>
    [(st.getD 0 0 + a) % M32, (st.getD 1 0 + b) % M32,
     (st.getD 2 0 + c) % M32, (st.getD 3 0 + d) % M32]

/-- The digest state after absorbing `msg`. -/
def digestWords (msg : List Nat) : List Nat :=
  (chunkList 64 (pad msg)).foldl compress
    [0x67452301, 0xefcdab89, 0x98badcfe, 0x10325476]

end Md5

/-- `hashlib.md5(bytes).hexdigest()` (each state word is emitted as its four
bytes, little-endian, in hex). -/
def md5Hex (msg : List Nat) : String :=
  String.join ((Md5.digestWords msg).map
    (fun w => String.join ((natToBytesLE w 4).map (fun b => toHex b 2))))

/-- RFC 1321 test vector, checking the implementation. -/
theorem md5_abc_vector :
    md5Hex (strBytes "abc") = "900150983cd24fb0d6963f7d28e17f72" := by
  decide

/-! ## Python values

The context data, rule dictionaries, evidence `content` and audit `details`
handled by the source are dynamically typed Python values.  The embedding is a
JSON-like sum, with an extra constructor for the aware `datetime` objects the
DSL evaluator manufactures.  Floats never arise in the data of the claims and
are omitted (the one float in the source paths below is the constant
`confidence = 1.0`, which is threaded through unchanged and never branched on;
it is dropped from the embedded result records). -/

inductive PyVal where
  | none
  | bool (b : Bool)
  | int (n : Int)
  | str (s : String)
  /-- An aware `datetime`, represented by its canonical `isoformat()`. -/
  | dt (iso : String)
  | list (xs : List PyVal)
  | dict (kvs : List (String × PyVal))

/-- Python exceptions raised by the embedded code. -/
inductive PyExn where
  | typeError (msg : String)
  | valueError (msg : String)
  | nameError (msg : String)
  /-- `AuditException` -/
  | audit (msg : String)
  /-- `EvidenceException` -/
  | evidence (msg : String)
  /-- `ValidationException`, with its optional `field` path -/
  | validation (msg : String) (field : Option String)
  /-- `RuleExecutionException`, with its optional `rule_id` -/
  | ruleExec (msg : String) (ruleId : Option String)
  /-- `DSLParserException`; the payload is its formatted `str()` -/
  | dslError (msg : String)
  /-- `AttributeError` -/
  | attributeError (msg : String)
  /-- `RecursionError` -/
  | recursionError (msg : String)
deriving DecidableEq

/-- Python `str(e)` of an exception, as `exceptions.py` formats it. -/
def PyExn.exnStr : PyExn → String
  | .typeError m => m
  | .valueError m => m
  | .nameError m => m
  | .audit m => "Audit Error: " ++ m
  | .evidence m => "Evidence Error: " ++ m
  | .validation m f =>
    match f with
    | some fld => "Validation Error (Field: " ++ fld ++ "): " ++ m
    | Option.none => "Validation Error: " ++ m
  | .ruleExec m r =>
    match r with
    | some rid => "Rule Execution Error (Rule: " ++ rid ++ "): " ++ m
    | Option.none => "Rule Execution Error: " ++ m
  | .dslError m => m
  | .attributeError m => m
  | .recursionError m => m

instance [DecidableEq ε] [DecidableEq α] : DecidableEq (Except ε α) := fun a b =>
  match a, b with
  | .ok x, .ok y =>
    if h : x = y then .isTrue (by rw [h])
    else .isFalse (by intro hh; cases hh; exact h rfl)
  | .error x, .error y =>
    if h : x = y then .isTrue (by rw [h])
    else .isFalse (by intro hh; cases hh; exact h rfl)
  | .ok _, .error _ => .isFalse (by intro hh; cases hh)
  | .error _, .ok _ => .isFalse (by intro hh; cases hh)

namespace PyVal

/-- Association-list lookup, Python `d[k]` / `d.get(k)`. -/
def dictGet (kvs : List (String × PyVal)) (k : String) : Option PyVal :=
  match kvs with
  | [] => Option.none
  | (k₁, v₁) :: rest => if k₁ = k then some v₁ else dictGet rest k

/-- Python `d[k] = v`: replace in place if the key exists, else append
(CPython dicts keep the original insertion position of an updated key). -/
def dictSet (kvs : List (String × PyVal)) (k : String) (v : PyVal) :
    List (String × PyVal) :=
  match kvs with
  | [] => [(k, v)]
  | (k₁, v₁) :: rest => if k₁ = k then (k, v) :: rest else (k₁, v₁) :: dictSet rest k v

/-- Python `a.update(b)`. -/
def dictUpdate (a b : List (String × PyVal)) : List (String × PyVal) :=
  b.foldl (fun acc kv => dictSet acc kv.1 kv.2) a

/-- Stable insertion keeping existing entries with keys `≤` the new key first
(this is how CPython `sorted` orders equal keys: stable, ascending). -/
def insertByLt (lt : α → α → Bool) (x : α) : List α → List α
  | [] => [x]
  | y :: ys => if lt x y then x :: y :: ys else y :: insertByLt lt x ys

/-- Stable ascending sort, CPython `sorted(l, key=...)` via `lt` on keys. -/
def sortByLt (lt : α → α → Bool) (l : List α) : List α :=
  l.foldl (fun acc x => insertByLt lt x acc) []

/-- String `<` on code points (CPython string comparison), written over the
character lists so that it evaluates inside the kernel. -/
def charsLt : List Char → List Char → Bool
  | [], [] => false
  | [], _ :: _ => true
  | _ :: _, [] => false
  | a :: as, b :: bs =>
    if a.toNat < b.toNat then true
    else if a.toNat = b.toNat then charsLt as bs
    else false

def strLt (a b : String) : Bool := charsLt a.data b.data

/-- Three-way string comparison on code points. -/
def strCompare (a b : String) : Ordering :=
  if strLt a b then .lt else if a = b then .eq else .gt

/-- Python `==`.  `True == 1` and `False == 0` (bools are ints); values of
unrelated types are unequal; dicts compare as key-value mappings regardless of
insertion order. -/
def pyEq : PyVal → PyVal → Bool
  | .none, .none => true
  | .bool a, .bool b => a == b
  | .bool a, .int n => (if a then (1 : Int) else 0) == n
  | .int n, .bool a => n == (if a then (1 : Int) else 0)
  | .int a, .int b => a == b
  | .str a, .str b => a == b
  | .dt a, .dt b => a == b
  | .list a, .list b => listEq a b
  | .dict a, .dict b => a.length == b.length && dictSub a b
  | _, _ => false
where
  listEq : List PyVal → List PyVal → Bool
    | [], [] => true
    | x :: xs, y :: ys => pyEq x y && listEq xs ys
    | _, _ => false
  dictSub : List (String × PyVal) → List (String × PyVal) → Bool
    | [], _ => true
    | (k, v) :: rest, b =>
      (match dictGet b k with
       | some w => pyEq v w
       | Option.none => false) && dictSub rest b

/-- Python three-way ordering where it is defined; `TypeError` otherwise
(mixed numeric/string, `None`, dicts, `datetime` against other types).
Aware datetimes with the same UTC offset order exactly as their canonical
`isoformat()` strings do. -/
def pyCmp : PyVal → PyVal → Except PyExn Ordering
  | .int a, .int b => .ok (compare a b)
  | .int a, .bool b => .ok (compare a (if b then 1 else 0))
  | .bool a, .int b => .ok (compare (if a then (1 : Int) else 0) b)
  | .bool a, .bool b => .ok (compare (if a then (1 : Int) else 0) (if b then 1 else 0))
  | .str a, .str b => .ok (strCompare a b)
  | .dt a, .dt b => .ok (strCompare a b)
  | .list a, .list b => listCmp a b
  | _, _ => .error (.typeError "unorderable types")
where
  listCmp : List PyVal → List PyVal → Except PyExn Ordering
    | [], [] => .ok .eq
    | [], _ :: _ => .ok .lt
    | _ :: _, [] => .ok .gt
    | x :: xs, y :: ys =>
      if pyEq x y then listCmp xs ys
      else do
        let o ← pyCmp x y
        .ok o

/-- Python truthiness, `bool(v)`. -/
def pyBool : PyVal → Bool
  | .none => false
  | .bool b => b
  | .int n => n != 0
  | .str s => s ≠ ""
  | .dt _ => true
  | .list xs => !xs.isEmpty
  | .dict kvs => !kvs.isEmpty

/-- Minimal JSON string escaping — the identity on the quote- and
backslash-free ASCII strings of the claims. -/
def jsonEscape (s : String) : String :=
  String.join (s.data.map (fun c =>
    if c = Char.ofNat 34 then "\\\""
    else if c = Char.ofNat 92 then "\\\\"
    else String.singleton c))

mutual

/-- Python `repr`.  String repr is modelled for quote-free ASCII payloads
(single-quoted); the `datetime` case is abbreviated, as no claim ever puts a
datetime object inside a repr-rendered value (contexts are JSON data). -/
def pyRepr : PyVal → String
  | .none => "None"
  | .bool b => if b then "True" else "False"
  | .int n => toString n
  | .str s => "\x27" ++ s ++ "\x27"
  | .dt iso => "datetime(" ++ iso ++ ")"
  | .list xs => "[" ++ reprJoin xs ++ "]"
  | .dict kvs => "\x7b" ++ reprJoinKvs kvs ++ "\x7d"

def reprJoin : List PyVal → String
  | [] => ""
  | [x] => pyRepr x
  | x :: y :: rest => pyRepr x ++ ", " ++ reprJoin (y :: rest)

def reprJoinKvs : List (String × PyVal) → String
  | [] => ""
  | [(k, v)] => "\x27" ++ k ++ "\x27: " ++ pyRepr v
  | (k, v) :: kv :: rest =>
    "\x27" ++ k ++ "\x27: " ++ pyRepr v ++ ", " ++ reprJoinKvs (kv :: rest)

end

/-- Python `str(v)`: strings bare, `datetime` with a space separator,
containers via `repr`. -/
def pyStr : PyVal → String
  | .str s => s
  | .dt iso => replaceStr iso "T" " "
  | v => pyRepr v

mutual

/-- Nesting depth of a value, an upper bound used as recursion fuel below. -/
def pyDepth : PyVal → Nat
  | .list xs => 1 + pyDepthList xs
  | .dict kvs => 1 + pyDepthKvs kvs
  | _ => 1

def pyDepthList : List PyVal → Nat
  | [] => 0
  | x :: xs => max (pyDepth x) (pyDepthList xs)

def pyDepthKvs : List (String × PyVal) → Nat
  | [] => 0
  | (_, v) :: kvs => max (pyDepth v) (pyDepthKvs kvs)

end

/-- `json.dumps` on a value of depth at most `fuel` (sorting the keys of a
dict is not structurally decreasing, so the recursion runs on an explicit
depth bound; `jsonDumps` below always supplies enough). -/
def jsonDumpsF : Nat → PyVal → String
  | 0, _ => ""
  | Nat.succ f, v =>
    match v with
    | .none => "null"
    | .bool b => if b then "true" else "false"
    | .int n => toString n
    | .str s => "\"" ++ jsonEscape s ++ "\""
    | .dt iso => "\"" ++ jsonEscape (replaceStr iso "T" " ") ++ "\""
    | .list xs => "[" ++ String.intercalate ", " (xs.map (jsonDumpsF f)) ++ "]"
    | .dict kvs =>
      "\x7b" ++
        String.intercalate ", "
          ((sortByLt (fun a b => strLt a.1 b.1) kvs).map
            (fun kv => "\"" ++ jsonEscape kv.1 ++ "\": " ++ jsonDumpsF f kv.2)) ++
      "\x7d"

/-- `json.dumps(v, sort_keys=True)` with the default separators `", "` and
`": "` — the canonical serialization both managers hash (the
`evidence_manager` variant also passes `default=str`, which only affects
values that are not JSON serializable; every value hashed by the claims is). -/
def jsonDumps (v : PyVal) : String := jsonDumpsF (pyDepth v) v

end PyVal

/-! ## Association-list helpers for the in-memory stores and indexes -/

/-- Lookup in an insertion-ordered map. -/
def alistGet (m : List (String × α)) (k : String) : Option α :=
  match m with
  | [] => Option.none
  | (k₁, v₁) :: rest => if k₁ = k then some v₁ else alistGet rest k

/-- `m[k] = v`: replace in place, else append (CPython dict semantics). -/
def alistSet (m : List (String × α)) (k : String) (v : α) : List (String × α) :=
  match m with
  | [] => [(k, v)]
  | (k₁, v₁) :: rest => if k₁ = k then (k, v) :: rest else (k₁, v₁) :: alistSet rest k v

/-- `del m[k]`. -/
def alistDel (m : List (String × α)) (k : String) : List (String × α) :=
  match m with
  | [] => []
  | (k₁, v₁) :: rest => if k₁ = k then rest else (k₁, v₁) :: alistDel rest k

/-- The source's index-update idiom:
`if key not in index: index[key] = []` then `index[key].append(id)`. -/
def indexAppend (m : List (String × List String)) (k i : String) :
    List (String × List String) :=
  match alistGet m k with
  | some l => alistSet m k (l ++ [i])
  | Option.none => alistSet m k [i]

/-- Python `list.remove(x)`: drop the first occurrence. -/
def removeFirst (l : List String) (x : String) : List String :=
  match l with
  | [] => []
  | y :: ys => if y = x then ys else y :: removeFirst ys x

/-- `s.replace('Z', '+00:00')`, applied by the source before re-parsing a
stored ISO timestamp.  `fromisoformat(·).isoformat()` is the identity on the
canonical `isoformat()` strings handled here, so the embedding of that
round-trip is `zReplace` alone. -/
def zReplace (s : String) : String := replaceStr s "Z" "+00:00"

/-! ## Audit trail (`audit_trail.py`) -/

/-- A stored audit entry (`create_audit_entry`'s dictionary). -/
structure AuditEntry where
  id : String
  timestamp : String
  action : String
  user : String
  details : List (String × PyVal)
  bundle_id : Option String
  hash : String

/-- An audit bundle (`create_audit_bundle`'s dictionary). -/
structure AuditBundle where
  id : String
  name : String
  description : String
  created : String
  modified : String
  version : String
  entry_count : Nat
  bundle_hash : String
  entries : List AuditEntry
  checksum : String

/-- The four audit indexes. -/
structure AuditIndexes where
  by_user : List (String × List String)
  by_action : List (String × List String)
  by_timestamp : List (String × List String)
  by_bundle : List (String × List String)

/-- The in-memory state of an `AuditTrail` manager. -/
structure AuditTrail where
  audit_store : List (String × AuditEntry)
  bundles : List (String × AuditBundle)
  indexes : AuditIndexes

/-- A fresh `AuditTrail()`. -/
def AuditTrail.init : AuditTrail :=
  { audit_store := [], bundles := [], indexes := ⟨[], [], [], []⟩ }

/-- The result dictionary of `verify_audit_entry_integrity` /
`verify_evidence_integrity` (hash fields are absent on the early-return
branches). -/
structure VerifyResult where
  valid : Bool
  reason : String
  stored_hash : Option String := Option.none
  calculated_hash : Option String := Option.none

namespace AuditTrail

/-- `_calculate_hash`: SHA-256 of
`action:user:canonical(details):timestamp.isoformat()`. -/
def calculateHash (action user : String) (details : List (String × PyVal))
    (timestamp : String) : String :=
  sha256Hex (strBytes
    (action ++ ":" ++ user ++ ":" ++ PyVal.jsonDumps (.dict details) ++ ":" ++ timestamp))

/-- `_update_indexes` (the timestamp key is `timestamp[:10]`, and `by_bundle`
is only touched when `bundle_id` is truthy). -/
def updateIndexes (ix : AuditIndexes) (e : AuditEntry) : AuditIndexes :=
  { by_user := indexAppend ix.by_user e.user e.id
    by_action := indexAppend ix.by_action e.action e.id
    by_timestamp := indexAppend ix.by_timestamp (strTake e.timestamp 10) e.id
    by_bundle :=
      match e.bundle_id with
      | some b => if b ≠ "" then indexAppend ix.by_bundle b e.id else ix.by_bundle
      | Option.none => ix.by_bundle }

/-- `create_audit_entry`.  `now` is `datetime.now(timezone.utc).isoformat()`
and `genId` the md5-derived id the source generates when `audit_id` is falsy;
both are nondeterministic reads passed explicitly. -/
def create_audit_entry (st : AuditTrail) (action user : String)
    (details : List (String × PyVal)) (audit_id : Option String)
    (bundle_id : Option String) (genId now : String) :
    Except PyExn (AuditEntry × AuditTrail) := do
  if action = "" then throw (.audit "Action cannot be empty")
  if user = "" then throw (.audit "User cannot be empty")
  let aid := match audit_id with
    | some s => if s = "" then genId else s
    | Option.none => genId
  let entry : AuditEntry :=
    { id := aid, timestamp := now, action := action, user := user,
      details := details, bundle_id := bundle_id,
      hash := calculateHash action user details now }
  let st' : AuditTrail :=
    { st with audit_store := alistSet st.audit_store aid entry,
              indexes := updateIndexes st.indexes entry }
  return (entry, st')

/-- `get_audit_entry`. -/
def get_audit_entry (st : AuditTrail) (audit_id : String) : Option AuditEntry :=
  alistGet st.audit_store audit_id

/-- `verify_audit_entry_integrity`: re-parse the stored timestamp, recompute
the hash, compare. -/
def verify_audit_entry_integrity (st : AuditTrail) (audit_id : String) : VerifyResult :=
  match get_audit_entry st audit_id with
  | Option.none => { valid := false, reason := "Audit entry not found" }
  | some entry =>
    let current := calculateHash entry.action entry.user entry.details
      (zReplace entry.timestamp)
    if entry.hash = "" then
      { valid := false, reason := "No hash stored for audit entry" }
    else if current = entry.hash then
      { valid := true, reason := "Hashes match",
        stored_hash := some entry.hash, calculated_hash := some current }
    else
      { valid := false, reason := "Hashes do not match",
        stored_hash := some entry.hash, calculated_hash := some current }

/-- `_calculate_bundle_checksum`: SHA-256 over the member hashes concatenated
in ascending-timestamp order (`sorted(entries, key=lambda x: x['timestamp'])`,
stable). -/
def calculateBundleChecksum (entries : List AuditEntry) : String :=
  sha256Hex (List.foldl (fun acc e => acc ++ strBytes e.hash) []
    (PyVal.sortByLt (fun a b => PyVal.strLt a.timestamp b.timestamp) entries))

/-- The entry-collection loop of `create_audit_bundle`: each id must resolve
and pass integrity verification. -/
def collectEntries (st : AuditTrail) : List String → Except PyExn (List AuditEntry)
  | [] => .ok []
  | audit_id :: rest => do
    match get_audit_entry st audit_id with
    | Option.none => throw (.audit ("Audit entry not found: " ++ audit_id))
    | some entry =>
      if (verify_audit_entry_integrity st audit_id).valid then do
        let es ← collectEntries st rest
        return entry :: es
      else
        throw (.audit ("Audit entry integrity check failed: " ++ audit_id))

/-- `create_audit_bundle`.  `bundle_hash` is accumulated over the member
hashes in the order `audit_ids` were given; `checksum` comes from
`_calculate_bundle_checksum` (timestamp-sorted).  After the bundle is built
the source walks `audit_ids` again and assigns `entry['bundle_id'] =
bundle_id` on the stored entries — the bundle's `entries` alias those store
dictionaries, so they carry the new `bundle_id` too, and the `by_bundle`
index is left untouched. -/
def create_audit_bundle (st : AuditTrail) (name description : String)
    (audit_ids : List String) (bundle_id : Option String) (genId now : String) :
    Except PyExn (AuditBundle × AuditTrail) := do
  if name = "" then throw (.audit "Bundle name cannot be empty")
  if audit_ids.isEmpty then throw (.audit "Audit IDs list cannot be empty")
  let bid := match bundle_id with
    | some s => if s = "" then genId else s
    | Option.none => genId
  let entries ← collectEntries st audit_ids
  let bundleHash := sha256Hex (List.foldl (fun acc e => acc ++ strBytes e.hash) [] entries)
  let checksum := calculateBundleChecksum entries
  let entriesAfter := entries.map (fun e => { e with bundle_id := some bid })
  let bundle : AuditBundle :=
    { id := bid, name := name, description := description,
      created := now, modified := now, version := "1.0",
      entry_count := entries.length, bundle_hash := bundleHash,
      entries := entriesAfter, checksum := checksum }
  let store' := audit_ids.foldl
    (fun acc audit_id =>
      match alistGet acc audit_id with
      | some e => alistSet acc audit_id { e with bundle_id := some bid }
      | Option.none => acc)
    st.audit_store
  return (bundle,
    { st with bundles := alistSet st.bundles bid bundle, audit_store := store' })

/-- `get_audit_bundle`. -/
def get_audit_bundle (st : AuditTrail) (bundle_id : String) : Option AuditBundle :=
  alistGet st.bundles bundle_id

/-- The result dictionary of `verify_audit_bundle_integrity`. -/
structure BundleVerifyResult where
  valid : Bool
  all_entries_valid : Bool := true
  checksum_valid : Bool := true
  stored_checksum : Option String := Option.none
  calculated_checksum : Option String := Option.none
  reason : String

/-- `verify_audit_bundle_integrity`: verify every member, recompute the
timestamp-sorted checksum, compare with the stored one. -/
def verify_audit_bundle_integrity (st : AuditTrail) (bundle_id : String) :
    BundleVerifyResult :=
  match get_audit_bundle st bundle_id with
  | Option.none => { valid := false, reason := "Audit bundle not found" }
  | some bundle =>
    let allValid := bundle.entries.all
      (fun e => (verify_audit_entry_integrity st e.id).valid)
    let current := calculateBundleChecksum bundle.entries
    let checksumValid := current = bundle.checksum
    let overall := allValid && checksumValid
    { valid := overall, all_entries_valid := allValid,
      checksum_valid := checksumValid,
      stored_checksum := some bundle.checksum,
      calculated_checksum := some current,
      reason := if overall then "Bundle integrity verified"
                else "Bundle integrity check failed" }

end AuditTrail

/-! ## Evidence manager (`evidence_manager.py`) -/

/-- A stored evidence record (`create_evidence`'s dictionary). -/
structure Evidence where
  id : String
  type : String
  content : List (String × PyVal)
  timestamp : String
  source : String
  hash : String

/-- The three evidence indexes. -/
structure EvidenceIndexes where
  by_type : List (String × List String)
  by_source : List (String × List String)
  by_timestamp : List (String × List String)

/-- The in-memory state of an `EvidenceManager`. -/
structure EvidenceManager where
  evidence_store : List (String × Evidence)
  indexes : EvidenceIndexes

/-- A fresh `EvidenceManager()`. -/
def EvidenceManager.init : EvidenceManager :=
  { evidence_store := [], indexes := ⟨[], [], []⟩ }

namespace EvidenceManager

/-- `VALID_EVIDENCE_TYPES`. -/
def VALID_EVIDENCE_TYPES : List String :=
  ["log", "document", "metric", "user_input", "system_event"]

/-- `_calculate_hash`: SHA-256 of the canonical JSON of the content. -/
def calculateHash (content : List (String × PyVal)) : String :=
  sha256Hex (strBytes (PyVal.jsonDumps (.dict content)))

/-- `_update_indexes`. -/
def updateIndexes (ix : EvidenceIndexes) (e : Evidence) : EvidenceIndexes :=
  { by_type := indexAppend ix.by_type e.type e.id
    by_source := indexAppend ix.by_source e.source e.id
    by_timestamp := indexAppend ix.by_timestamp (strTake e.timestamp 10) e.id }

/-- `create_evidence` (`now` and `genId` as for audit entries). -/
def create_evidence (st : EvidenceManager) (evidence_type : String)
    (content : List (String × PyVal)) (source : String)
    (evidence_id : Option String) (genId now : String) :
    Except PyExn (Evidence × EvidenceManager) := do
  if ¬ VALID_EVIDENCE_TYPES.contains evidence_type then
    throw (.evidence ("Invalid evidence type: " ++ evidence_type))
  if content.isEmpty then throw (.evidence "Evidence content cannot be empty")
  let eid := match evidence_id with
    | some s => if s = "" then genId else s
    | Option.none => genId
  let ev : Evidence :=
    { id := eid, type := evidence_type, content := content,
      timestamp := now, source := source, hash := calculateHash content }
  let st' : EvidenceManager :=
    { evidence_store := alistSet st.evidence_store eid ev,
      indexes := updateIndexes st.indexes ev }
  return (ev, st')

/-- `get_evidence`. -/
def get_evidence (st : EvidenceManager) (evidence_id : String) : Option Evidence :=
  alistGet st.evidence_store evidence_id

/-- `verify_evidence_integrity`: recompute the content hash, compare. -/
def verify_evidence_integrity (st : EvidenceManager) (evidence_id : String) :
    VerifyResult :=
  match get_evidence st evidence_id with
  | Option.none => { valid := false, reason := "Evidence not found" }
  | some ev =>
    let current := calculateHash ev.content
    if ev.hash = "" then
      { valid := false, reason := "No hash stored for evidence" }
    else if current = ev.hash then
      { valid := true, reason := "Hashes match",
        stored_hash := some ev.hash, calculated_hash := some current }
    else
      { valid := false, reason := "Hashes do not match",
        stored_hash := some ev.hash, calculated_hash := some current }

/-- `_remove_from_indexes`. -/
def removeFromIndexes (ix : EvidenceIndexes) (e : Evidence) : EvidenceIndexes :=
  { by_type :=
      match alistGet ix.by_type e.type with
      | some l => alistSet ix.by_type e.type (removeFirst l e.id)
      | Option.none => ix.by_type
    by_source :=
      match alistGet ix.by_source e.source with
      | some l => alistSet ix.by_source e.source (removeFirst l e.id)
      | Option.none => ix.by_source
    by_timestamp :=
      match alistGet ix.by_timestamp (strTake e.timestamp 10) with
      | some l => alistSet ix.by_timestamp (strTake e.timestamp 10) (removeFirst l e.id)
      | Option.none => ix.by_timestamp }

/-- `delete_evidence`: drop from the primary store and all indexes. -/
def delete_evidence (st : EvidenceManager) (evidence_id : String) :
    Bool × EvidenceManager :=
  match get_evidence st evidence_id with
  | Option.none => (false, st)
  | some ev =>
    (true,
     { evidence_store := alistDel st.evidence_store evidence_id,
       indexes := removeFromIndexes st.indexes ev })

end EvidenceManager

/-! ## DecisionBundle validation (`decision_bundle.py`) -/

namespace PyVal

/-- Python `p in s` on strings: substring containment. -/
def isSubstrChars (p : List Char) : List Char → Bool
  | [] => startsChars p []
  | c :: rest => startsChars p (c :: rest) || isSubstrChars p rest

/-- Python `k in v` for a string `k`: key membership for dicts, element
equality for lists, substring for strings, `TypeError` otherwise. -/
def pyHasKey (v : PyVal) (k : String) : Except PyExn Bool :=
  match v with
  | .dict kvs => .ok ((dictGet kvs k).isSome)
  | .list xs => .ok (xs.any (fun x => pyEq x (.str k)))
  | .str s => .ok (isSubstrChars k.data s.data)
  | _ => .error (.typeError "argument of type is not iterable")

/-- Python `v[k]` for a string `k` on a dict (`KeyError` is not modelled
separately: the source only subscripts keys whose presence it has checked). -/
def pyGetItem (v : PyVal) (k : String) : Except PyExn PyVal :=
  match v with
  | .dict kvs =>
    match dictGet kvs k with
    | some w => .ok w
    | Option.none => .error (.valueError ("KeyError: " ++ k))
  | _ => .error (.typeError "object is not subscriptable")

/-- Python iteration `for x in v`: list elements, dict keys, string
characters; `TypeError` otherwise. -/
def pyIter (v : PyVal) : Except PyExn (List PyVal) :=
  match v with
  | .list xs => .ok xs
  | .dict kvs => .ok (kvs.map (fun kv => .str kv.1))
  | .str s => .ok (s.data.map (fun c => .str (String.singleton c)))
  | _ => .error (.typeError "object is not iterable")

end PyVal

namespace DecisionBundle

open PyVal

/-- The `field not in data → raise ValidationException(msgPre + field, path field)`
loop shared by all four required-field checks. -/
def checkRequired (v : PyVal) (fields : List String) (msgPre : String)
    (mkPath : String → String) : Except PyExn Unit :=
  match fields with
  | [] => .ok ()
  | f :: rest => do
    let has ← pyHasKey v f
    if has then checkRequired v rest msgPre mkPath
    else throw (.validation (msgPre ++ f) (some (mkPath f)))

/-- `_validate_rule`. -/
def validateRule (rule : PyVal) (i : Nat) : Except PyExn Unit := do
  checkRequired rule ["id", "name", "type", "definition"]
    "Missing required rule field: "
    (fun f => "rules[" ++ toString i ++ "]." ++ f)
  let t ← pyGetItem rule "type"
  let validTypes := ["dsl", "expression", "decision_table", "decision_tree"]
  if validTypes.any (fun s => pyEq t (.str s)) then
    .ok ()
  else
    throw (.validation ("Invalid rule type: " ++ pyStr t)
      (some ("rules[" ++ toString i ++ "].type")))

/-- `_validate_decision`. -/
def validateDecision (decision : PyVal) (i : Nat) : Except PyExn Unit := do
  checkRequired decision ["id", "ruleId", "input", "output", "timestamp"]
    "Missing required decision field: "
    (fun f => "decisions[" ++ toString i ++ "]." ++ f)
  let output ← pyGetItem decision "output"
  let has ← pyHasKey output "result"
  if has then .ok ()
  else throw (.validation "Missing output.result"
    (some ("decisions[" ++ toString i ++ "].output.result")))

/-- The `for i, rule in enumerate(...)` loops. -/
def validateEach (f : PyVal → Nat → Except PyExn Unit) :
    List PyVal → Nat → Except PyExn Unit
  | [], _ => .ok ()
  | x :: rest, i => do
    f x i
    validateEach f rest (i + 1)

/-- `_validate`: required top-level fields, `version == "1.0"`, required
metadata fields, the domain enum, then every rule and every decision. -/
def validate (data : PyVal) : Except PyExn Unit := do
  checkRequired data ["version", "metadata", "rules", "decisions"]
    "Missing required field: " id
  let version ← pyGetItem data "version"
  if ¬ pyEq version (.str "1.0") then
    throw (.validation ("Unsupported version: " ++ pyStr version) (some "version"))
  let metadata ← pyGetItem data "metadata"
  checkRequired metadata ["id", "name", "description", "created", "jurisdiction", "domain"]
    "Missing required metadata field: " (fun f => "metadata." ++ f)
  let domain ← pyGetItem metadata "domain"
  let validDomains := ["finance", "health", "esg", "general"]
  if ¬ validDomains.any (fun s => pyEq domain (.str s)) then
    throw (.validation ("Invalid domain: " ++ pyStr domain) (some "metadata.domain"))
  let rules ← pyGetItem data "rules"
  let ruleList ← pyIter rules
  validateEach validateRule ruleList 0
  let decisions ← pyGetItem data "decisions"
  let decisionList ← pyIter decisions
  validateEach validateDecision decisionList 0

/-- A validated bundle object. -/
structure Bundle where
  data : PyVal

/-- `DecisionBundle(bundle_data)`: the constructor stores the data and runs
`_validate`; it never touches a rule engine, so validation happens before any
rule could run. -/
def construct (data : PyVal) : Except PyExn Bundle := do
  validate data
  return ⟨data⟩

end DecisionBundle

/-! ## DSL tokenizer (`dsl_parser.py`, class `DSLParser`) -/

/-- A token: `type` tag, lexeme `value`, byte `position`. -/
structure Token where
  type : String
  value : String
  position : Nat
deriving DecidableEq

namespace DSLParser

/-- The reserved keywords. -/
def KEYWORDS : List String :=
  ["WHEN", "IF", "THEN", "MUST", "SHOULD", "DO", "AND", "OR", "NOT",
   "IN", "CONTAINS", "MATCHES", "BEFORE", "AFTER", "WITHIN", "EXPIRES",
   "BETWEEN", "REQUIRE", "ENSURE", "VALIDATE", "FLAG", "ALERT", "BLOCK",
   "ALLOW", "LOG", "NOTIFY", "TRUE", "FALSE"]

/-- The operator lexemes (note `LIKE` is listed here in the source). -/
def OPERATORS : List String := ["=", "!=", ">", ">=", "<", "<=", "LIKE"]

/-- The time-unit lexemes. -/
def TIME_UNITS : List String :=
  ["SECOND", "SECONDS", "MINUTE", "MINUTES", "HOUR", "HOURS",
   "DAY", "DAYS", "WEEK", "WEEKS", "MONTH", "MONTHS", "YEAR", "YEARS"]

/-- Python `str.isspace` on the ASCII range. -/
def pyIsSpace (c : Char) : Bool :=
  c.toNat = 32 || (9 ≤ c.toNat && c.toNat ≤ 13)

/-- Python `str.upper` on the ASCII range. -/
def pyUpper (s : String) : String := String.mk (s.data.map Char.toUpper)

/-- `_parse_number`: digits, optional `.` + digits, optional exponent
(`e`/`E`, optional sign, digits).  Returns the lexeme and the rest. -/
def scanNumber (cs : List Char) : List Char × List Char :=
  let (intPart, r1) := cs.span Char.isDigit
  let (decPart, r2) :=
    match r1 with
    | '.' :: r => let (ds, r') := r.span Char.isDigit; ('.' :: ds, r')
    | _ => ([], r1)
  let (expPart, r3) :=
    match r2 with
    | e :: r =>
      if e.toLower = 'e' then
        match r with
        | s :: r' =>
          if s = '+' || s = '-' then
            let (ds, r'') := r'.span Char.isDigit; (e :: s :: ds, r'')
          else
            let (ds, r'') := r.span Char.isDigit; (e :: ds, r'')
        | [] => ([e], [])
      else ([], r2)
    | [] => ([], r2)
  (intPart ++ decPart ++ expPart, r3)

/-- The scan loop of `_parse_string` after the opening quote: consume up to
the matching quote, a backslash skipping the following character; `none` if
the string is unterminated.  Returns the consumed characters including the
closing quote, and the rest. -/
def scanStringBody (q : Char) : List Char → Option (List Char × List Char)
  | [] => Option.none
  | c :: cs =>
    if c = q then some ([c], cs)
    else if c = '\\' then
      match cs with
      | [] => Option.none
      | d :: ds =>
        match scanStringBody q ds with
        | some (t, r) => some (c :: d :: t, r)
        | Option.none => Option.none
    else
      match scanStringBody q cs with
      | some (t, r) => some (c :: t, r)
      | Option.none => Option.none

/-- `_parse_identifier`: consume alphanumerics and `_`, then classify the
lexeme: upper-cased member of `KEYWORDS` → `keyword` (stored upper-cased),
of `TIME_UNITS` → `time_unit` (upper-cased), otherwise `identifier`
(original spelling).  `LIKE` upper-cases to `LIKE`, which is in neither
list, so it comes out as an `identifier`. -/
def classifyIdentifier (value : String) (pos : Nat) : Token :=
  if KEYWORDS.contains (pyUpper value) then
    { type := "keyword", value := pyUpper value, position := pos }
  else if TIME_UNITS.contains (pyUpper value) then
    { type := "time_unit", value := pyUpper value, position := pos }
  else
    { type := "identifier", value := value, position := pos }

/-- `_parse_operator`, reached only when the current character is one of
`= ! > <`: try the two-character slice against `OPERATORS`, then the single
character; otherwise `DSLParserException("Unknown operator: …")`. -/
def scanOperator (c : Char) (cs : List Char) (pos : Nat) :
    Except PyExn (Token × List Char) :=
  match cs with
  | d :: rest =>
    if OPERATORS.contains (String.mk [c, d]) then
      .ok ({ type := "operator", value := String.mk [c, d], position := pos }, rest)
    else if OPERATORS.contains (String.singleton c) then
      .ok ({ type := "operator", value := String.singleton c, position := pos }, cs)
    else
      .error (.dslError ("DSL Parser Error at line 1, column " ++ toString (pos + 1) ++
        ": Unknown operator: " ++ String.singleton c))
  | [] =>
    if OPERATORS.contains (String.singleton c) then
      .ok ({ type := "operator", value := String.singleton c, position := pos }, [])
    else
      .error (.dslError ("DSL Parser Error at line 1, column " ++ toString (pos + 1) ++
        ": Unknown operator: " ++ String.singleton c))

/-- The `_tokenize` loop, with fuel (each step consumes at least one
character, so `fuel = length` suffices; running out is unreachable). -/
def tokenizeGo : Nat → List Char → Nat → Except PyExn (List Token)
  | 0, [], _ => .ok []
  | 0, _ :: _, _ => .error (.dslError "tokenizer fuel exhausted")
  | Nat.succ fuel, chars, pos =>
    match chars with
    | [] => .ok []
    | c :: cs =>
      if pyIsSpace c then tokenizeGo fuel cs (pos + 1)
      else if c.isDigit then
        let (lexeme, rest) := scanNumber (c :: cs)
        (do
          let toks ← tokenizeGo fuel rest (pos + lexeme.length)
          .ok ({ type := "number", value := String.mk lexeme, position := pos } :: toks))
      else if c = '"' || c = '\x27' then
        match scanStringBody c cs with
        | Option.none =>
          .error (.dslError ("DSL Parser Error at line 1, column " ++ toString (pos + 1) ++
            ": Unterminated string"))
        | some (body, rest) =>
          (do
            let toks ← tokenizeGo fuel rest (pos + 1 + body.length)
            .ok ({ type := "string", value := String.mk (c :: body), position := pos } :: toks))
      else if c.isAlpha || c = '_' then
        let (lexeme, rest) := (c :: cs).span (fun a => a.isAlphanum || a = '_')
        (do
          let toks ← tokenizeGo fuel rest (pos + lexeme.length)
          .ok (classifyIdentifier (String.mk lexeme) pos :: toks))
      else if c = '=' || c = '!' || c = '>' || c = '<' then
        (do
          let (tok, rest) ← scanOperator c cs pos
          let toks ← tokenizeGo fuel rest (pos + tok.value.length)
          .ok (tok :: toks))
      else if c = '(' || c = ')' || c = '[' || c = ']' || c = ',' || c = '.' || c = '@' then
        (do
          let toks ← tokenizeGo fuel cs (pos + 1)
          .ok ({ type := "symbol", value := String.singleton c, position := pos } :: toks))
      else
        .error (.dslError ("DSL Parser Error at line 1, column " ++ toString (pos + 1) ++
          ": Unknown character: " ++ String.singleton c))

/-- `_tokenize`. -/
def tokenize (text : String) : Except PyExn (List Token) :=
  tokenizeGo text.data.length text.data 0

end DSLParser

/-! ## DSL AST (`dsl_parser.py` parser output, one constructor per node type) -/

inductive DNode where
  /-- a `variable` node -/
  | varRef (name : String)
  | stringValue (value : String)
  | numberValue (value : Int)
  /-- A decimal number lexeme, `float(value)` in the source.  IEEE-754
  values are outside this embedding (no claim contains a decimal literal);
  resolving one raises below where CPython would produce a float. -/
  | floatValue (lexeme : String)
  | booleanValue (value : Bool)
  | datetimeValue (value : String)

inductive Cond where
  | simple (left : DNode) (op : String) (right : DNode)
  | listCond (varn : DNode) (values : List DNode)
  | patternCond (varn : DNode) (op : String) (pattern : DNode)
  | temporal (varn : DNode) (op : String) (value : DNode)
  | compound (left : Cond) (op : String) (right : Cond)
  | notCond (condition : Cond)
  | varCond (varn : DNode)

inductive BExpr where
  | booleanLiteral (value : Bool)
  | variableExpression (varn : DNode)
  | notExpression (expression : BExpr)
  | booleanExpression (left : BExpr) (op : String) (right : BExpr)

inductive Conseq where
  | constraint (varn : DNode) (op : String) (value : DNode)
  | inConstraint (varn : DNode) (values : List DNode)
  | notInConstraint (varn : DNode) (values : List DNode)
  | betweenConstraint (varn lower upper : DNode)
  | requirement (keyword : String) (varn : DNode)
  /-- A `_parse_boolean_expression` node used as a consequence. -/
  | bexpr (e : BExpr)

inductive ActionNode where
  | mk (action_type : String) (varn : DNode)

/-- A parsed rule: a condition with either a consequence or an action. -/
inductive DslRule where
  | withConseq (condition : Cond) (consequence : Conseq)
  | withAction (condition : Cond) (act : ActionNode)

/-! ## DSL recursive-descent parser -/

namespace DSLParser

/-- Parser state: the token list and `token_index`. -/
structure PState where
  tokens : List Token
  idx : Nat

/-- `self.current_token`. -/
def cur (s : PState) : Option Token := s.tokens.get? s.idx

/-- `self._advance()`. -/
def adv (s : PState) : PState := { s with idx := s.idx + 1 }

/-- A `DSLParserException` without position info. -/
def perr (msg : String) : PyExn := .dslError ("DSL Parser Error: " ++ msg)

/-- CPython's `RecursionError`, reached by the source on inputs that drive
`_parse_boolean_expression` into its self-recursing fallback. -/
def recLimit : PyExn := .recursionError "maximum recursion depth exceeded"

/-- `self.current_token and self.current_token['value'] == v`. -/
def curValIs (s : PState) (v : String) : Bool :=
  match cur s with
  | some t => t.value = v
  | Option.none => false

/-- `self.current_token and self.current_token['value'] in vs`. -/
def curValIn (s : PState) (vs : List String) : Bool :=
  match cur s with
  | some t => vs.contains t.value
  | Option.none => false

/-- `self.current_token and self.current_token['type'] == ty`. -/
def curTypeIs (s : PState) (ty : String) : Bool :=
  match cur s with
  | some t => t.type = ty
  | Option.none => false

/-- `self._expect(type, value?)`. -/
def expectT (s : PState) (ty : String) (v : Option String) :
    Except PyExn (Token × PState) :=
  match cur s with
  | Option.none => .error (perr ("Expected " ++ ty ++ ", got end of input"))
  | some t =>
    if t.type ≠ ty then .error (perr ("Expected " ++ ty ++ ", got " ++ t.type))
    else
      match v with
      | some val =>
        if pyUpper t.value ≠ pyUpper val then
          .error (perr ("Expected " ++ val ++ ", got " ++ t.value))
        else .ok (t, adv s)
      | Option.none => .ok (t, adv s)

/-- `_is_temporal_condition`: an identifier with a temporal keyword within
the next three tokens (current included). -/
def isTemporalCondition (s : PState) : Bool :=
  curTypeIs s "identifier" &&
    (List.range 3).any (fun i =>
      match s.tokens.get? (s.idx + i) with
      | some tok =>
        tok.type = "keyword" && ["BEFORE", "AFTER", "WITHIN", "EXPIRES"].contains tok.value
      | Option.none => false)

/-- `_is_constraint`: an identifier with an operator or `IN`/`BETWEEN` within
the two tokens after it. -/
def isConstraint (s : PState) : Bool :=
  curTypeIs s "identifier" &&
    (List.range 2).any (fun i =>
      match s.tokens.get? (s.idx + 1 + i) with
      | some tok =>
        tok.type = "operator" || ["IN", "BETWEEN"].contains tok.value
      | Option.none => false)

/-- `_looks_like_datetime`: `re.match` of `\d{4}-\d{2}-\d{2}T\d{2}:\d{2}:\d{2}`
(a prefix match; the shape letter `d` stands for a digit). -/
def shapeOk : List Char → List Char → Bool
  | [], _ => true
  | _ :: _, [] => false
  | p :: ps, c :: cs =>
    (if p = 'd' then c.isDigit else c = p) && shapeOk ps cs

def looksLikeDatetime (v : String) : Bool :=
  shapeOk "dddd-dd-ddTdd:dd:dd".data v.data

/-- Python `int(s)` on a tokenizer number lexeme. -/
def pyIntParse (s : String) : Option Int :=
  if s ≠ "" && s.data.all Char.isDigit then
    some (Int.ofNat (s.data.foldl (fun acc c => acc * 10 + (c.toNat - 48)) 0))
  else Option.none

/-- The collection loop of `_parse_variable`: identifiers joined by dots. -/
def parseVarParts : Nat → PState → List String → List String × PState
  | 0, s, acc => (acc.reverse, s)
  | Nat.succ f, s, acc =>
    match cur s with
    | some t =>
      if t.type = "identifier" then
        let s1 := adv s
        if curValIs s1 "." then parseVarParts f (adv s1) (t.value :: acc)
        else ((t.value :: acc).reverse, s1)
      else (acc.reverse, s)
    | Option.none => (acc.reverse, s)

/-- `_parse_variable`. -/
def parseVariable (s : PState) : Except PyExn (DNode × PState) :=
  match parseVarParts (s.tokens.length + 1) s [] with
  | ([], _) => .error (perr "Expected variable")
  | (parts, s1) => .ok (.varRef (String.intercalate "." parts), s1)

/-- `_parse_value`. -/
def parseValue (s : PState) : Except PyExn (DNode × PState) :=
  match cur s with
  | some t =>
    if t.type = "string" then
      .ok (.stringValue (String.mk (t.value.data.drop 1).dropLast), adv s)
    else if t.type = "number" then
      if t.value.data.contains '.' then .ok (.floatValue t.value, adv s)
      else
        match pyIntParse t.value with
        | some n => .ok (.numberValue n, adv s)
        | Option.none =>
          .error (.valueError ("invalid literal for int() with base 10: " ++ t.value))
    else if t.value = "TRUE" || t.value = "FALSE" then do
      let (v, s) ← expectT s "keyword" Option.none
      .ok (.booleanValue (v.value = "TRUE"), s)
    else if t.type = "identifier" then
      if looksLikeDatetime t.value then .ok (.datetimeValue t.value, adv s)
      else parseVariable s
    else .error (perr ("Expected value, got " ++ t.type))
  | Option.none => .error (perr "Expected value, got nothing")

/-- The element loop of `_parse_list`, ending at `]`. -/
def parseListGo : Nat → PState → List DNode → Except PyExn (List DNode × PState)
  | 0, _, _ => .error recLimit
  | Nat.succ f, s, acc =>
    match cur s with
    | some t =>
      if t.value ≠ "]" then do
        let (v, s) ← parseValue s
        let s := if curValIs s "," then adv s else s
        parseListGo f s (v :: acc)
      else do
        let (_, s) ← expectT s "symbol" (some "]")
        .ok (acc.reverse, s)
    | Option.none => do
      let (_, s) ← expectT s "symbol" (some "]")
      .ok (acc.reverse, s)

/-- `_parse_list`. -/
def parseList (s : PState) : Except PyExn (List DNode × PState) := do
  let (_, s) ← expectT s "symbol" (some "[")
  parseListGo (s.tokens.length + 1) s []

/-- `_parse_simple_condition`. -/
def parseSimple (s : PState) (left : DNode) : Except PyExn (Cond × PState) := do
  let (op, s) ← expectT s "operator" Option.none
  let (right, s) ← parseValue s
  .ok (.simple left op.value right, s)

/-- `_parse_list_condition`. -/
def parseListCond (s : PState) (left : DNode) : Except PyExn (Cond × PState) := do
  let (_, s) ← expectT s "keyword" (some "IN")
  let (values, s) ← parseList s
  .ok (.listCond left values, s)

/-- `_parse_pattern_condition`. -/
def parsePattern (s : PState) (left : DNode) : Except PyExn (Cond × PState) := do
  let (op, s) ← expectT s "keyword" Option.none
  let (pattern, s) ← parseValue s
  .ok (.patternCond left op.value pattern, s)

/-- `_parse_temporal_condition`. -/
def parseTemporal (s : PState) : Except PyExn (Cond × PState) := do
  let (varn, s) ← parseVariable s
  let (op, s) ← expectT s "keyword" Option.none
  let s ← (if op.value = "EXPIRES" then do
      let (_, s1) ← expectT s "keyword" (some "AFTER")
      pure s1
    else pure s)
  let (value, s) ← parseValue s
  .ok (.temporal varn op.value value, s)

/-- `_parse_requirement`. -/
def parseRequirement (s : PState) : Except PyExn (Conseq × PState) := do
  let (kw, s) ← expectT s "keyword" Option.none
  let (varn, s) ← parseVariable s
  .ok (.requirement kw.value varn, s)

/-- `_parse_constraint`. -/
def parseConstraint (s : PState) : Except PyExn (Conseq × PState) := do
  let (varn, s) ← parseVariable s
  if curValIs s "IN" then
    let s := adv s
    if curValIs s "NOT" then do
      let (values, s) ← parseList (adv s)
      .ok (.notInConstraint varn values, s)
    else do
      let (values, s) ← parseList s
      .ok (.inConstraint varn values, s)
  else if curValIs s "BETWEEN" then do
    let (lower, s) ← parseValue (adv s)
    let (_, s) ← expectT s "keyword" (some "AND")
    let (upper, s) ← parseValue s
    .ok (.betweenConstraint varn lower upper, s)
  else do
    let (op, s) ← expectT s "operator" Option.none
    let (value, s) ← parseValue s
    .ok (.constraint varn op.value value, s)

/-- `_parse_boolean_expression`.  Its final fallback recurses on an unchanged
state — in CPython that is an eventual `RecursionError`, modelled by fuel. -/
def parseBooleanExpression : Nat → PState → Except PyExn (BExpr × PState)
  | 0, _ => .error recLimit
  | Nat.succ f, s =>
    if curValIn s ["TRUE", "FALSE"] then do
      let (v, s) ← expectT s "keyword" Option.none
      .ok (.booleanLiteral (v.value = "TRUE"), s)
    else if curTypeIs s "identifier" then do
      let (varn, s) ← parseVariable s
      .ok (.variableExpression varn, s)
    else if curValIs s "NOT" then do
      let (e, s) ← parseBooleanExpression f (adv s)
      .ok (.notExpression e, s)
    else do
      let (left, s) ← parseBooleanExpression f s
      if curValIs s "AND" || curValIs s "OR" then do
        let (op, s) ← expectT s "keyword" Option.none
        let (right, s) ← parseBooleanExpression f s
        .ok (.booleanExpression left op.value right, s)
      else .ok (left, s)

/-- `_parse_consequence`. -/
def parseConsequence (f : Nat) (s : PState) : Except PyExn (Conseq × PState) :=
  if curValIn s ["REQUIRE", "ENSURE", "VALIDATE"] then parseRequirement s
  else if isConstraint s then parseConstraint s
  else do
    let (e, s) ← parseBooleanExpression f s
    .ok (.bexpr e, s)

/-- `_parse_consequence_clause`. -/
def parseConsequenceClause (f : Nat) (s : PState) : Except PyExn (Conseq × PState) :=
  if curValIs s "THEN" then
    let s := adv s
    let s := if curValIn s ["MUST", "SHOULD"] then adv s else s
    parseConsequence f s
  else .error (perr "Expected THEN")

/-- `_parse_action`. -/
def parseAction (s : PState) : Except PyExn (ActionNode × PState) := do
  let (t, s) ← expectT s "keyword" Option.none
  let (varn, s) ← parseVariable s
  .ok (.mk t.value varn, s)

/-- `_parse_action_clause`. -/
def parseActionClause (s : PState) : Except PyExn (ActionNode × PState) :=
  if curValIs s "THEN" then do
    let (_, s) ← expectT (adv s) "keyword" (some "DO")
    parseAction s
  else .error (perr "Expected THEN DO")

mutual

/-- `_parse_condition`. -/
def parseCondition : Nat → PState → Except PyExn (Cond × PState)
  | 0, _ => .error recLimit
  | Nat.succ f, s =>
    if curValIs s "NOT" then parseCompound f s
    else if curValIs s "(" then parseCompound f s
    else if isTemporalCondition s then parseTemporal s
    else do
      let (left, s) ← parseVariable s
      if curTypeIs s "operator" then parseSimple s left
      else if curValIs s "IN" then parseListCond s left
      else if curValIn s ["CONTAINS", "MATCHES"] then parsePattern s left
      else .ok (.varCond left, s)

/-- `_parse_compound_condition` (reached only when the current token is
`NOT` or `(`; its trailing `AND`/`OR` arm is therefore dead code in the
source, and `compound` nodes are never built by the parser). -/
def parseCompound : Nat → PState → Except PyExn (Cond × PState)
  | 0, _ => .error recLimit
  | Nat.succ f, s =>
    if curValIs s "NOT" then do
      let (condition, s) ← parseCondition f (adv s)
      .ok (.notCond condition, s)
    else if curValIs s "(" then do
      let (condition, s) ← parseCondition f (adv s)
      let (_, s) ← expectT s "symbol" (some ")")
      .ok (condition, s)
    else do
      let (left, s) ← parseCondition f s
      if curValIn s ["AND", "OR"] then do
        let (op, s) ← expectT s "keyword" Option.none
        let (right, s) ← parseCondition f s
        .ok (.compound left op.value right, s)
      else .ok (left, s)

end

/-- `_parse_condition_clause`. -/
def parseConditionClause (f : Nat) (s : PState) : Except PyExn (Cond × PState) :=
  if curValIn s ["WHEN", "IF"] then parseCondition f (adv s)
  else .error (perr "Expected WHEN or IF")

/-- `_parse_rule`. -/
def parseRule (f : Nat) (s : PState) : Except PyExn (DslRule × PState) := do
  let (condition, s) ← parseConditionClause f s
  match cur s with
  | some t =>
    if t.type = "keyword" && ["THEN", "MUST", "SHOULD"].contains t.value then do
      let (conseq, s) ← parseConsequenceClause f s
      .ok (.withConseq condition conseq, s)
    else if t.type = "keyword" && t.value = "DO" then do
      let (act, s) ← parseActionClause s
      .ok (.withAction condition act, s)
    else .error (perr "Expected consequence or action clause")
  | Option.none => .error (perr "Expected consequence or action clause")

/-- `DSLParser.parse`: strip, reject empty, tokenize, parse a rule, and
demand that every token was consumed. -/
def parse (dsl_text : String) : Except PyExn DslRule := do
  let text := String.mk ((dsl_text.data.dropWhile DSLParser.pyIsSpace).reverse.dropWhile
    DSLParser.pyIsSpace).reverse
  if text = "" then throw (perr "Empty DSL rule")
  let tokens ← tokenize text
  let s0 : PState := ⟨tokens, 0⟩
  let (ast, s) ← parseRule (4 * tokens.length + 64) s0
  match cur s with
  | some tok => throw (perr ("Unexpected token: " ++ tok.value))
  | Option.none => .ok ast

end DSLParser

/-! ## DSL evaluator (`dsl_parser.py`, class `DSLEvaluator`)

Intermediate evaluation results are the Python dictionaries the source
builds (`{'result': …, 'left': …, …}`), embedded as `PyVal.dict`.
The evaluator's module has `from datetime import datetime, timedelta` but
never imports `timezone`, so the `WITHIN` / `EXPIRES` branches (lines
817/823), which read `timezone.utc`, raise `NameError` when reached. -/

namespace DSLEvaluator

open PyVal DSLParser

/-- `d.get(k, default)` on a result dictionary. -/
def getKeyD (v : PyVal) (k : String) (d : PyVal) : PyVal :=
  match v with
  | .dict kvs => (dictGet kvs k).getD d
  | _ => d

/-- `d['result']` on a result dictionary. -/
def getResult (v : PyVal) : PyVal := getKeyD v "result" .none

/-- `_get_variable_value`: dotted-path walk; a missing or non-mapping step
yields `None`. -/
def getVariableValue (name : String) (context : PyVal) : PyVal :=
  walk ((splitOnChar '.' name.data).map String.mk) context
where
  walk : List String → PyVal → PyVal
  | [], v => v
  | p :: ps, v =>
    match v with
    | .dict kvs =>
      match dictGet kvs p with
      | some w => walk ps w
      | Option.none => .none
    | _ => .none

/-- `_get_value`. -/
def getValue (node : DNode) (context : PyVal) : Except PyExn PyVal :=
  match node with
  | .varRef name => .ok (getVariableValue name context)
  | .stringValue s => .ok (.str s)
  | .numberValue n => .ok (.int n)
  | .floatValue lex => .error (.typeError ("float literal outside embedding: " ++ lex))
  | .booleanValue b => .ok (.bool b)
  | .datetimeValue s => .ok (.str s)

/-- The anchored match of the `LIKE` regex `^p$` where `p` is the pattern
with `%` replaced by `.*` and `_` by `.`: `%` matches any sequence, `_` and
(regex) `.` any one character, all other characters themselves.  Faithful
exactly for patterns free of the remaining regex metacharacters
`\ ^ $ * + ? ( ) [ ] { } |` (for such a pattern the substituted regex is a
sequence of literals, `.` and `.*`); the claims' theorems quantify over
LIKE patterns only under that restriction. -/
def globMatchF : Nat → List Char → List Char → Bool
  | 0, _, _ => false
  | Nat.succ f, ps, s =>
    match ps, s with
    | [], [] => true
    | [], _ :: _ => false
    | '%' :: ps1, s =>
      globMatchF f ps1 s ||
        (match s with
         | [] => false
         | _ :: s1 => globMatchF f ('%' :: ps1) s1)
    | _ :: _, [] => false
    | p :: ps1, c :: cs => (p = '_' || p = '.' || p = c) && globMatchF f ps1 cs

def likeMatch (pat s : String) : Bool :=
  globMatchF (pat.data.length + s.data.length + 1) pat.data s.data

/-- `re.search(pattern, s)` for `MATCHES`, modelled as literal containment —
faithful for metacharacter-free patterns (no claim evaluates `MATCHES`). -/
def reSearchLit (pat s : String) : Bool := isSubstrChars pat.data s.data

/-- `_apply_operator`: `TypeError` / `ValueError` from a comparison are
caught and become `False`; anything else propagates. -/
def applyOperator (left : PyVal) (op : String) (right : PyVal) : Except PyExn Bool :=
  let inner : Except PyExn Bool :=
    if op = "=" then .ok (pyEq left right)
    else if op = "!=" then .ok (!pyEq left right)
    else if op = ">" then (pyCmp left right).map (fun o => o == Ordering.gt)
    else if op = ">=" then (pyCmp left right).map (fun o => o != Ordering.lt)
    else if op = "<" then (pyCmp left right).map (fun o => o == Ordering.lt)
    else if op = "<=" then (pyCmp left right).map (fun o => o != Ordering.gt)
    else if op = "LIKE" then
      match right with
      | .str p => .ok (likeMatch p (pyStr left))
      | _ => .error (.attributeError "object has no attribute replace")
    else .ok false
  match inner with
  | .error (.typeError _) => .ok false
  | .error (.valueError _) => .ok false
  | r => r

/-- `datetime.fromisoformat(s.replace('Z', '+00:00'))`, as the canonical
string of the parsed instant; `none` models `ValueError` (the source passes
on it, leaving the raw string).  The accepted shape is a
`YYYY-MM-DDTHH:MM:SS` prefix, the form every claim supplies. -/
def tryParseIso (s : String) : Option String :=
  if looksLikeDatetime s then some (zReplace s) else Option.none

/-- The string-to-datetime coercion at the top of
`_evaluate_temporal_condition`. -/
def coerceDt (v : PyVal) : PyVal :=
  match v with
  | .str s =>
    match tryParseIso s with
    | some iso => .dt iso
    | Option.none => v
  | _ => v

/-- `_evaluate_temporal_condition`.  `BEFORE` / `AFTER` compare the coerced
values; `WITHIN` / `EXPIRES` with a numeric bound reach
`datetime.now(timezone.utc)` and raise `NameError` (`timezone` is not
imported); with a non-numeric bound `result` stays `False`. -/
def evalTemporalCondition (varn : DNode) (op : String) (value : DNode)
    (context : PyVal) : Except PyExn PyVal := do
  let vv0 ← getValue varn context
  let v0 ← getValue value context
  let vv := coerceDt vv0
  let v := coerceDt v0
  let result ←
    (if op = "BEFORE" then (pyCmp vv v).map (fun o => o == Ordering.lt)
     else if op = "AFTER" then (pyCmp vv v).map (fun o => o == Ordering.gt)
     else if op = "WITHIN" then
       match v with
       | .int _ => .error (.nameError "name \x27timezone\x27 is not defined")
       | .bool _ => .error (.nameError "name \x27timezone\x27 is not defined")
       | _ => .ok false
     else if op = "EXPIRES" then
       match v with
       | .int _ => .error (.nameError "name \x27timezone\x27 is not defined")
       | .bool _ => .error (.nameError "name \x27timezone\x27 is not defined")
       | _ => .ok false
     else .ok false)
  .ok (.dict [("result", .bool result), ("variable", vv),
              ("operator", .str op), ("value", v)])

/-- `_evaluate_condition` and the per-form evaluators it dispatches to.
`compound` evaluates BOTH operands before combining them — there is no
short-circuit in `_evaluate_compound_condition`. -/
def evalCondition : Cond → PyVal → Except PyExn PyVal
  | .simple left op right, ctx => do
    let lv ← getValue left ctx
    let rv ← getValue right ctx
    let result ← applyOperator lv op rv
    .ok (.dict [("result", .bool result), ("left", lv),
                ("operator", .str op), ("right", rv)])
  | .listCond varn values, ctx => do
    let vv ← getValue varn ctx
    let lvs ← values.mapM (fun n => getValue n ctx)
    .ok (.dict [("result", .bool (lvs.any (fun x => pyEq vv x))),
                ("variable", vv), ("list", .list lvs)])
  | .patternCond varn op pat, ctx => do
    let vv ← getValue varn ctx
    let pv ← getValue pat ctx
    let vs := pyStr vv
    let ps := pyStr pv
    let result :=
      if op = "CONTAINS" then isSubstrChars ps.data vs.data
      else if op = "MATCHES" then reSearchLit ps vs
      else false
    .ok (.dict [("result", .bool result), ("variable", .str vs),
                ("pattern", .str ps), ("operator", .str op)])
  | .temporal varn op value, ctx => evalTemporalCondition varn op value ctx
  | .compound left op right, ctx => do
    let lr ← evalCondition left ctx
    let rr ← evalCondition right ctx
    let result :=
      if op = "AND" then pyBool (getResult lr) && pyBool (getResult rr)
      else if op = "OR" then pyBool (getResult lr) || pyBool (getResult rr)
      else false
    .ok (.dict [("result", .bool result), ("left", lr), ("right", rr),
                ("operator", .str op)])
  | .notCond c, ctx => do
    let ir ← evalCondition c ctx
    .ok (.dict [("result", .bool (!pyBool (getResult ir))), ("inner", ir)])
  | .varCond varn, ctx => do
    let vv ← getValue varn ctx
    .ok (.dict [("result", .bool (pyBool vv)), ("variable", vv)])

/-- `_evaluate_boolean_expression`. -/
def evalBooleanExpression : BExpr → PyVal → Except PyExn PyVal
  | .notExpression e, ctx => do
    let ir ← evalBooleanExpression e ctx
    .ok (.dict [("result", .bool (!pyBool (getResult ir))), ("inner", ir)])
  | .booleanExpression left op right, ctx => do
    let lr ← evalBooleanExpression left ctx
    let rr ← evalBooleanExpression right ctx
    let result :=
      if op = "AND" then pyBool (getResult lr) && pyBool (getResult rr)
      else if op = "OR" then pyBool (getResult lr) || pyBool (getResult rr)
      else false
    .ok (.dict [("result", .bool result), ("left", lr), ("right", rr),
                ("operator", .str op)])
  | .booleanLiteral v, _ =>
    .ok (.dict [("result", .bool v), ("reason", .str "Boolean literal")])
  | .variableExpression varn, ctx => do
    let value ← getValue varn ctx
    .ok (.dict [("result", .bool (pyBool value)),
                ("reason", .str ("Variable expression: " ++ pyStr value))])

/-- `_evaluate_consequence` (a `not_expression` used directly as a
consequence is not in its dispatch table and raises `ValueError`). -/
def evalConsequence : Conseq → PyVal → Except PyExn PyVal
  | .constraint varn op value, ctx => do
    let vv ← getValue varn ctx
    let v ← getValue value ctx
    let result ← applyOperator vv op v
    .ok (.dict [("result", .bool result), ("variable", vv),
                ("operator", .str op), ("value", v)])
  | .inConstraint varn values, ctx => do
    let vv ← getValue varn ctx
    let lvs ← values.mapM (fun n => getValue n ctx)
    .ok (.dict [("result", .bool (lvs.any (fun x => pyEq vv x))),
                ("variable", vv), ("list", .list lvs)])
  | .notInConstraint varn values, ctx => do
    let vv ← getValue varn ctx
    let lvs ← values.mapM (fun n => getValue n ctx)
    .ok (.dict [("result", .bool (!(lvs.any (fun x => pyEq vv x)))),
                ("variable", vv), ("list", .list lvs)])
  | .betweenConstraint varn lower upper, ctx => do
    let vv ← getValue varn ctx
    let lo ← getValue lower ctx
    let hi ← getValue upper ctx
    let firstLe ← (pyCmp lo vv).map (fun o => o != Ordering.gt)
    let result ← if firstLe = true then (pyCmp vv hi).map (fun o => o != Ordering.gt)
                 else pure false
    .ok (.dict [("result", .bool result), ("variable", vv),
                ("lower", lo), ("upper", hi)])
  | .requirement kw varn, ctx => do
    let vv ← getValue varn ctx
    .ok (.dict [("result", .bool (pyBool vv)), ("variable", vv),
                ("requirement", .str kw)])
  | .bexpr e, ctx =>
    match e with
    | .booleanExpression l op r => evalBooleanExpression (.booleanExpression l op r) ctx
    | .booleanLiteral v =>
      .ok (.dict [("result", .bool v), ("reason", .str "Boolean literal")])
    | .variableExpression varn => do
      let value ← getValue varn ctx
      .ok (.dict [("result", .bool (pyBool value)),
                  ("reason", .str ("Variable expression: " ++ pyStr value))])
    | .notExpression _ =>
      .error (.valueError "Unknown consequence type: not_expression")

/-- `_evaluate_action`. -/
def evalAction : ActionNode → PyVal → Except PyExn PyVal
  | .mk atype varn, ctx => do
    let vv ← getValue varn ctx
    .ok (.dict [("action_type", .str atype), ("variable", vv),
                ("executed", .bool true)])

/-- The body of `evaluate` before its catch-all `except`. -/
def evaluateE (ast : DslRule) (context : PyVal) : Except PyExn PyVal := do
  match ast with
  | .withConseq cond conseq =>
    let condRes ← evalCondition cond context
    if ¬ pyBool (getResult condRes) then
      .ok (.dict [("result", .bool true), ("reason", .str "Condition not met"),
                  ("details", condRes)])
    else
      let cres ← evalConsequence conseq context
      .ok (.dict [("result", getResult cres),
                  ("reason", getKeyD cres "reason" (.str "Consequence evaluated")),
                  ("details", .dict [("condition", condRes), ("consequence", cres)])])
  | .withAction cond act =>
    let condRes ← evalCondition cond context
    if ¬ pyBool (getResult condRes) then
      .ok (.dict [("result", .bool true), ("reason", .str "Condition not met"),
                  ("details", condRes)])
    else
      let ares ← evalAction act context
      .ok (.dict [("result", .bool true),
                  ("reason", .str ("Action executed: " ++
                    pyStr (getKeyD ares "action_type" .none))),
                  ("details", .dict [("condition", condRes), ("action", ares)])])

/-- `DSLEvaluator.evaluate`: any exception becomes
`{'result': False, 'reason': 'Evaluation error: …', 'error': …}`. -/
def evaluate (ast : DslRule) (context : PyVal) : PyVal :=
  match evaluateE ast context with
  | .ok v => v
  | .error e =>
    .dict [("result", .bool false),
           ("reason", .str ("Evaluation error: " ++ e.exnStr)),
           ("error", .str e.exnStr)]

end DSLEvaluator

/-! ## AST nodes as the dictionaries the source parser builds
(used by the engine, which stores the parsed AST in a result's details). -/

namespace DSLParser

def dnodeToPy : DNode → PyVal
  | .varRef name => .dict [("type", .str "variable"), ("name", .str name)]
  | .stringValue v => .dict [("type", .str "string_value"), ("value", .str v)]
  | .numberValue n => .dict [("type", .str "number_value"), ("value", .int n)]
  | .floatValue lex => .dict [("type", .str "number_value"), ("value", .str lex)]
  | .booleanValue b => .dict [("type", .str "boolean_value"), ("value", .bool b)]
  | .datetimeValue v => .dict [("type", .str "datetime_value"), ("value", .str v)]

def condToPy : Cond → PyVal
  | .simple l op r =>
    .dict [("type", .str "simple_condition"), ("left", dnodeToPy l),
           ("operator", .str op), ("right", dnodeToPy r)]
  | .listCond v vals =>
    .dict [("type", .str "list_condition"), ("variable", dnodeToPy v),
           ("values", .list (vals.map dnodeToPy))]
  | .patternCond v op p =>
    .dict [("type", .str "pattern_condition"), ("variable", dnodeToPy v),
           ("operator", .str op), ("pattern", dnodeToPy p)]
  | .temporal v op val =>
    .dict [("type", .str "temporal_condition"), ("variable", dnodeToPy v),
           ("operator", .str op), ("value", dnodeToPy val)]
  | .compound l op r =>
    .dict [("type", .str "compound_condition"), ("left", condToPy l),
           ("operator", .str op), ("right", condToPy r)]
  | .notCond c =>
    .dict [("type", .str "not_condition"), ("condition", condToPy c)]
  | .varCond v =>
    .dict [("type", .str "variable_condition"), ("variable", dnodeToPy v)]

def bexprToPy : BExpr → PyVal
  | .booleanLiteral v => .dict [("type", .str "boolean_literal"), ("value", .bool v)]
  | .variableExpression v =>
    .dict [("type", .str "variable_expression"), ("variable", dnodeToPy v)]
  | .notExpression e =>
    .dict [("type", .str "not_expression"), ("expression", bexprToPy e)]
  | .booleanExpression l op r =>
    .dict [("type", .str "boolean_expression"), ("left", bexprToPy l),
           ("operator", .str op), ("right", bexprToPy r)]

def conseqToPy : Conseq → PyVal
  | .constraint v op val =>
    .dict [("type", .str "constraint"), ("variable", dnodeToPy v),
           ("operator", .str op), ("value", dnodeToPy val)]
  | .inConstraint v vals =>
    .dict [("type", .str "in_constraint"), ("variable", dnodeToPy v),
           ("values", .list (vals.map dnodeToPy))]
  | .notInConstraint v vals =>
    .dict [("type", .str "not_in_constraint"), ("variable", dnodeToPy v),
           ("values", .list (vals.map dnodeToPy))]
  | .betweenConstraint v lo hi =>
    .dict [("type", .str "between_constraint"), ("variable", dnodeToPy v),
           ("lower", dnodeToPy lo), ("upper", dnodeToPy hi)]
  | .requirement kw v =>
    .dict [("type", .str "requirement"), ("keyword", .str kw),
           ("variable", dnodeToPy v)]
  | .bexpr e => bexprToPy e

def actionToPy : ActionNode → PyVal
  | .mk t v =>
    .dict [("type", .str "action"), ("action_type", .str t),
           ("variable", dnodeToPy v)]

def ruleAstToPy : DslRule → PyVal
  | .withConseq c q =>
    .dict [("type", .str "rule"), ("condition", condToPy c),
           ("consequence", conseqToPy q)]
  | .withAction c a =>
    .dict [("type", .str "rule"), ("condition", condToPy c),
           ("action", actionToPy a)]

end DSLParser

/-! ## Rule engine (`rule_engine.py`)

Rules and rule results are the Python dictionaries of the source, embedded
as `PyVal`.  `eval(...)` in `_execute_expression_rule` is a host-language
facility outside the embedding; the engine carries it as an explicit
function field (`evalHost`), never invoked by any claim.  A custom handler
is modelled as a pure function of the rule and the context. -/

/-- `ExecutionContext` (its `execution_id` is a `uuid4` and its `timestamp`
`datetime.now(timezone.utc)`, nondeterministic inputs supplied at creation). -/
structure ExecutionContext where
  data : List (String × PyVal)
  /-- the `variables` mapping (`variables` is a Lean keyword) -/
  vars : List (String × PyVal)
  execution_id : String
  timestamp : String
  results : List PyVal
  errors : List PyVal
  metadata : List (String × PyVal)

namespace ExecutionContext

/-- `ExecutionContext(data, variables)`. -/
def init (data vars : List (String × PyVal)) (execution_id timestamp : String) :
    ExecutionContext :=
  { data := data, vars := vars, execution_id := execution_id,
    timestamp := timestamp, results := [], errors := [], metadata := [] }

/-- `get_context_data`: `data` updated with `variables`, plus the
`_execution` entry carrying the context's id and timestamp. -/
def get_context_data (c : ExecutionContext) : List (String × PyVal) :=
  PyVal.dictSet (PyVal.dictUpdate c.data c.vars) "_execution"
    (.dict [("id", .str c.execution_id), ("timestamp", .str c.timestamp)])

end ExecutionContext

/-- The engine: custom handlers and the execution cache. -/
structure RuleEngine where
  custom_handlers : List (String × (PyVal → ExecutionContext → Except PyExn PyVal))
  cache : List (String × PyVal)
  evalHost : String → Except PyExn PyVal

namespace RuleEngine

open PyVal DSLEvaluator

/-- A fresh `RuleEngine()` (around the given host `eval`). -/
def init (evalHost : String → Except PyExn PyVal) : RuleEngine :=
  { custom_handlers := [], cache := [], evalHost := evalHost }

/-- `register_handler`. -/
def register_handler (e : RuleEngine) (rule_type : String)
    (h : PyVal → ExecutionContext → Except PyExn PyVal) : RuleEngine :=
  { e with custom_handlers := alistSet e.custom_handlers rule_type h }

/-- `clear_cache`. -/
def clear_cache (e : RuleEngine) : RuleEngine := { e with cache := [] }

/-- `rule.get(k, default)`; a non-dict rule raises `AttributeError` as in
Python. -/
def pyGetAttrD (v : PyVal) (k : String) (d : PyVal) : Except PyExn PyVal :=
  match v with
  | .dict kvs => .ok ((dictGet kvs k).getD d)
  | _ => .error (.attributeError "object has no attribute get")

/-- `v` as the mapping `update` expects. -/
def asMapping (v : PyVal) : Except PyExn (List (String × PyVal)) :=
  match v with
  | .dict kvs => .ok kvs
  | _ => .error (.typeError "update expects a mapping")

/-- `str(sorted(d.items()))`: the items sorted by key (keys are distinct, so
tuple comparison never reaches the values), rendered as Python renders a
list of pairs. -/
def tupleListStr (kvs : List (String × PyVal)) : String :=
  "[" ++
    String.intercalate ", "
      ((sortByLt (fun a b => strLt a.1 b.1) kvs).map
        (fun kv => "(\x27" ++ kv.1 ++ "\x27, " ++ pyRepr kv.2 ++ ")")) ++
  "]"

/-- `_get_cache_key`: MD5 of `"{rule_id}:{str(sorted(context_data.items()))}"`.
The `_execution` entry of `get_context_data` — the context's `execution_id`
and creation timestamp — is part of the hashed string. -/
def get_cache_key (rule : PyVal) (c : ExecutionContext) : String :=
  let rule_id := getKeyD rule "id" (.str "unknown")
  md5Hex (strBytes (pyStr rule_id ++ ":" ++ tupleListStr c.get_context_data))

/-- `_get_nested_value` (the engine's own copy; its body coincides with the
evaluator's dotted-path walk). -/
def getNestedValue (path : String) (data : List (String × PyVal)) : PyVal :=
  DSLEvaluator.getVariableValue path (.dict data)

/-- The engine's `_evaluate_condition` (decision tables and trees):
`TypeError` / `ValueError` → `False`. -/
def evalEngineCondition (field_value : PyVal) (op : String) (value : PyVal) :
    Except PyExn Bool :=
  let inner : Except PyExn Bool :=
    if op = "=" then .ok (pyEq field_value value)
    else if op = "!=" then .ok (!pyEq field_value value)
    else if op = ">" then (pyCmp field_value value).map (fun o => o == Ordering.gt)
    else if op = ">=" then (pyCmp field_value value).map (fun o => o != Ordering.lt)
    else if op = "<" then (pyCmp field_value value).map (fun o => o == Ordering.lt)
    else if op = "<=" then (pyCmp field_value value).map (fun o => o != Ordering.gt)
    else if op = "contains" then
      .ok (isSubstrChars (pyStr value).data (pyStr field_value).data)
    else if op = "exceeds" then (pyCmp field_value value).map (fun o => o == Ordering.gt)
    else .ok false
  match inner with
  | .error (.typeError _) => .ok false
  | .error (.valueError _) => .ok false
  | r => r

/-- The rule's id for an exception payload. -/
def ruleIdOpt (rule : PyVal) : Option String :=
  match rule with
  | .dict kvs =>
    match dictGet kvs "id" with
    | some v => some (pyStr v)
    | Option.none => Option.none
  | _ => Option.none

/-- `_execute_dsl_rule`. -/
def executeDslRule (rule : PyVal) (c : ExecutionContext) : Except PyExn PyVal := do
  let definition ← pyGetAttrD rule "definition" (.dict [])
  let dsl_text ← pyGetAttrD definition "dsl" (.str "")
  if ¬ pyBool dsl_text then
    throw (.ruleExec "DSL rule missing DSL text" (ruleIdOpt rule))
  let text ← (match dsl_text with
    | .str s => pure s
    | _ => throw (.ruleExec "DSL parsing failed: object has no attribute strip"
        (ruleIdOpt rule)))
  let ast ← (match DSLParser.parse text with
    | .ok a => pure a
    | .error e => throw (.ruleExec ("DSL parsing failed: " ++ e.exnStr) (ruleIdOpt rule)))
  let context_data := c.get_context_data
  let er := DSLEvaluator.evaluate ast (.dict context_data)
  let params ← pyGetAttrD definition "parameters" (.dict [])
  .ok (.dict [("result", getResult er),
              ("reason", getKeyD er "reason" (.str "DSL evaluation completed")),
              ("details", .dict [("dsl_text", dsl_text),
                                 ("ast", DSLParser.ruleAstToPy ast),
                                 ("evaluation", er),
                                 ("parameters", params)])])

/-- `_execute_expression_rule` (variable substitution, then the host `eval`). -/
def executeExpressionRule (eng : RuleEngine) (rule : PyVal) (c : ExecutionContext) :
    Except PyExn PyVal := do
  let definition ← pyGetAttrD rule "definition" (.dict [])
  let expression ← pyGetAttrD definition "expression" (.str "")
  let varsDef ← pyGetAttrD definition "variables" (.dict [])
  if ¬ pyBool expression then
    throw (.ruleExec "Expression rule missing expression" (ruleIdOpt rule))
  let inner : Except PyExn PyVal := do
    let context_data := c.get_context_data
    let vkvs ← (match varsDef with
      | .dict kvs => pure kvs
      | _ => throw (.attributeError "object has no attribute items"))
    let exprStr ← (match expression with
      | .str s => pure s
      | _ => throw (.attributeError "object has no attribute replace"))
    let eval_expression := vkvs.foldl
      (fun acc kv =>
        match dictGet context_data kv.1 with
        | some value =>
          if pyEq kv.2 (.str "boolean") then
            replaceStr acc kv.1 (String.mk ((pyStr value).data.map Char.toLower))
          else replaceStr acc kv.1 (pyStr value)
        | Option.none => acc)
      exprStr
    let result ← eng.evalHost eval_expression
    .ok (.dict [("result", .bool (pyBool result)),
                ("reason", .str ("Expression evaluated to: " ++ pyStr result)),
                ("details", .dict [("expression", expression),
                                   ("evaluated_expression", .str eval_expression),
                                   ("variables", varsDef)])])
  match inner with
  | .ok v => .ok v
  | .error e =>
    throw (.ruleExec ("Expression evaluation failed: " ++ e.exnStr) (ruleIdOpt rule))

/-- The condition loop of `_execute_decision_table_rule`. -/
def tableConditions (context_data : List (String × PyVal)) :
    List PyVal → Except PyExn (Bool × List PyVal)
  | [] => .ok (true, [])
  | cond :: rest => do
    let field ← pyGetAttrD cond "field" (.str "")
    let op ← pyGetAttrD cond "operator" (.str "")
    let value ← pyGetAttrD cond "value" (.str "")
    let fieldStr ← (match field with
      | .str s => pure s
      | _ => throw (.attributeError "object has no attribute split"))
    let field_value := getNestedValue fieldStr context_data
    let met ← evalEngineCondition field_value (pyStr op) value
    let rec_ : PyVal := .dict [("field", field), ("operator", op), ("value", value),
                               ("field_value", field_value), ("met", .bool met)]
    let (allMet, rs) ← tableConditions context_data rest
    .ok (met && allMet, rec_ :: rs)

/-- `_execute_decision_table_rule`. -/
def executeDecisionTable (rule : PyVal) (c : ExecutionContext) :
    Except PyExn PyVal := do
  let definition ← pyGetAttrD rule "definition" (.dict [])
  let table ← pyGetAttrD definition "table" (.dict [])
  if ¬ pyBool table then
    throw (.ruleExec "Decision table rule missing table" (ruleIdOpt rule))
  let conditions ← pyGetAttrD table "conditions" (.list [])
  let actions ← pyGetAttrD table "actions" (.list [])
  let context_data := c.get_context_data
  let condList ← pyIter conditions
  let (allMet, condResults) ← tableConditions context_data condList
  let actionResults ←
    (if allMet then do
      let acts ← pyIter actions
      acts.mapM (fun a => do
        let t ← pyGetAttrD a "result" (.bool false)
        let r ← pyGetAttrD a "reason" (.str "Decision table action")
        pure (PyVal.dict [("type", t), ("reason", r)]))
    else pure [])
  .ok (.dict [("result", .bool allMet),
              ("reason", .str (if allMet then "Decision table conditions met"
                               else "Decision table conditions not met")),
              ("details", .dict [("conditions", .list condResults),
                                 ("actions", .list actionResults),
                                 ("table", table)])])

/-- `_traverse_decision_tree` (fuel: the nesting depth of the node). -/
def traverseTree : Nat → PyVal → List (String × PyVal) → List PyVal →
    Except PyExn PyVal
  | 0, _, _, _ => .error (.recursionError "maximum recursion depth exceeded")
  | Nat.succ f, node, context_data, path => do
    let isLeaf ← pyHasKey node "result"
    if isLeaf then do
      let r ← pyGetItem node "result"
      let reason ← pyGetAttrD node "reason" (.str "Leaf node reached")
      .ok (.dict [("result", r), ("reason", reason), ("path", .list path),
                  ("final_node", node)])
    else do
      let condition ← pyGetAttrD node "condition" (.dict [])
      let field ← pyGetAttrD condition "field" (.str "")
      let op ← pyGetAttrD condition "operator" (.str "")
      let value ← pyGetAttrD condition "value" (.str "")
      let fieldStr ← (match field with
        | .str s => pure s
        | _ => throw (.attributeError "object has no attribute split"))
      let field_value := getNestedValue fieldStr context_data
      let met ← evalEngineCondition field_value (pyStr op) value
      let nextKey := if met then "true_branch" else "false_branch"
      let nextNode ← pyGetAttrD node nextKey .none
      if ¬ pyBool nextNode then
        .ok (.dict [("result", .bool false),
                    ("reason", .str ("No " ++ nextKey ++ " found at node")),
                    ("path", .list path), ("final_node", node)])
      else
        let step := "Condition: " ++ pyStr field ++ " " ++ pyStr op ++ " " ++
          pyStr value ++ " = " ++ (if met then "True" else "False")
        traverseTree f nextNode context_data (path ++ [.str step])

/-- `_execute_decision_tree_rule`. -/
def executeDecisionTree (rule : PyVal) (c : ExecutionContext) :
    Except PyExn PyVal := do
  let definition ← pyGetAttrD rule "definition" (.dict [])
  let tree ← pyGetAttrD definition "tree" (.dict [])
  if ¬ pyBool tree then
    throw (.ruleExec "Decision tree rule missing tree" (ruleIdOpt rule))
  let context_data := c.get_context_data
  let r := traverseTree (PyVal.pyDepth tree + 1) tree context_data []
  match r with
  | .error e => .error e
  | .ok res => do
    let result ← pyGetAttrD res "result" (.bool false)
    let reason ← pyGetAttrD res "reason" (.str "Decision tree traversal completed")
    let path ← pyGetAttrD res "path" (.list [])
    let finalNode ← pyGetAttrD res "final_node" .none
    .ok (.dict [("result", result), ("reason", reason),
                ("details", .dict [("tree", tree), ("path", path),
                                   ("final_node", finalNode)])])

/-- The dispatch of `execute_rule` on `rule_type`. -/
def dispatch (eng : RuleEngine) (rule : PyVal) (rule_type rule_id : PyVal)
    (c : ExecutionContext) : Except PyExn PyVal :=
  if pyEq rule_type (.str "dsl") then executeDslRule rule c
  else if pyEq rule_type (.str "expression") then executeExpressionRule eng rule c
  else if pyEq rule_type (.str "decision_table") then executeDecisionTable rule c
  else if pyEq rule_type (.str "decision_tree") then executeDecisionTree rule c
  else
    match rule_type with
    | .str t =>
      (match alistGet eng.custom_handlers t with
       | some h => h rule c
       | Option.none =>
         .error (.ruleExec ("Unsupported rule type: " ++ t) (some (pyStr rule_id))))
    | _ =>
      .error (.ruleExec ("Unsupported rule type: " ++ pyStr rule_type)
        (some (pyStr rule_id)))

/-- The base result record `execute_rule` builds before dispatch. -/
def mkBase (rule_id rule_name rule_type : PyVal) (now : String) :
    List (String × PyVal) :=
  [("rule_id", rule_id), ("rule_name", rule_name), ("rule_type", rule_type),
   ("timestamp", .str now), ("result", .bool false), ("reason", .str ""),
   ("details", .dict [])]

/-- `execute_rule`: build the base result record, check the cache (a hit is
returned `cached: True` with the context untouched), otherwise dispatch,
merge, cache the evaluator outcome, and append the merged record to
`context.results`.  Any exception inside is re-raised as
`RuleExecutionException("Rule execution failed: …")`. -/
def execute_rule (eng : RuleEngine) (rule : PyVal) (c : ExecutionContext)
    (now : String) : Except PyExn (PyVal × RuleEngine × ExecutionContext) := do
  let rule_id ← pyGetAttrD rule "id" (.str "unknown")
  let rule_name ← pyGetAttrD rule "name" (.str "unknown")
  let rule_type ← pyGetAttrD rule "type" (.str "unknown")
  let result0 := mkBase rule_id rule_name rule_type now
  let inner : Except PyExn (PyVal × RuleEngine × ExecutionContext) := do
    let cache_key := get_cache_key rule c
    match alistGet eng.cache cache_key with
    | some cached => do
      let kvs ← asMapping cached
      let res := dictSet (dictUpdate result0 kvs) "cached" (.bool true)
      pure (.dict res, eng, c)
    | Option.none => do
      let execRes ← dispatch eng rule rule_type rule_id c
      let kvs ← asMapping execRes
      let res := dictUpdate result0 kvs
      pure (.dict res,
            { eng with cache := alistSet eng.cache cache_key execRes },
            { c with results := c.results ++ [.dict res] })
  match inner with
  | .ok r => .ok r
  | .error e =>
    throw (.ruleExec ("Rule execution failed: " ++ e.exnStr) (some (pyStr rule_id)))

end RuleEngine

/-! ## Theorems about the claims -/

open PyVal DSLParser DSLEvaluator

/-- An audit trail holding two unmodified entries: `a1` (timestamp
2024-01-01) and `a2` (timestamp 2024-01-02). -/
def c1StateE : Except PyExn AuditTrail := do
  let p1 ← AuditTrail.init.create_audit_entry "login" "alice" []
    (some "a1") Option.none "g1" "2024-01-01T00:00:00+00:00"
  let p2 ← p1.2.create_audit_entry "logout" "bob" []
    (some "a2") Option.none "g2" "2024-01-02T00:00:00+00:00"
  pure p2.2

def c1State : AuditTrail :=
  match c1StateE with
  | .ok st => st
  | .error _ => AuditTrail.init

/-- `create_audit_bundle` over the two stored entries, ids given in
reverse-timestamp order. -/
def c1RunRev : Except PyExn (AuditBundle × AuditTrail) :=
  c1State.create_audit_bundle "b" "d" ["a2", "a1"] (some "B") "gB"
    "2024-01-03T00:00:00+00:00"

/-- The same bundle creation with the ids in ascending-timestamp order. -/
def c1RunSorted : Except PyExn (AuditBundle × AuditTrail) :=
  c1State.create_audit_bundle "b" "d" ["a1", "a2"] (some "B") "gB"
    "2024-01-03T00:00:00+00:00"

/-- The entries `collectEntries` gathers for the sorted-order run. -/
def c1Es : List AuditEntry :=
  match AuditTrail.collectEntries c1State ["a1", "a2"] with
  | .ok es => es
  | .error _ => []

def emptyAuditBundle : AuditBundle :=
  ⟨"", "", "", "", "", "", 0, "", [], ""⟩

def c1B : AuditBundle :=
  match c1RunSorted with
  | .ok p => p.1
  | .error _ => emptyAuditBundle

def c1St2 : AuditTrail :=
  match c1RunSorted with
  | .ok p => p.2
  | .error _ => AuditTrail.init

/-- An audit trail with the single entry `a1`, then a bundle `B` built over
it. -/
def c2State : AuditTrail :=
  match AuditTrail.init.create_audit_entry "login" "alice"
      [("ip", .str "10.0.0.1")] (some "a1") Option.none "g1"
      "2024-01-01T00:00:00+00:00" with
  | .ok p => p.2
  | .error _ => AuditTrail.init

def c2After : Except PyExn (AuditBundle × AuditTrail) :=
  c2State.create_audit_bundle "Bundle" "desc" ["a1"] (some "B") "gB"
    "2024-01-02T00:00:00+00:00"

/-- C1 counterexample: a bundle over stored, unmodified entries whose ids
are passed in descending-timestamp order has `bundle_hash ≠ checksum` —
`bundle_hash` is accumulated in the input (id) order while
`_calculate_bundle_checksum` sorts by timestamp, so the two digests hash
different concatenations. -/
theorem C1_counterexample :
    c1RunRev.map (fun p => p.1.bundle_hash == p.1.checksum) = .ok false := by
  decide

/-- Helper: inserting an element that is not below any list member appends
it at the end. -/
theorem insertByLt_append (lt : α → α → Bool) (x : α) (l : List α)
    (h : ∀ y ∈ l, lt x y = false) : PyVal.insertByLt lt x l = l ++ [x] := by
  induction l with
  | nil => rfl
  | cons y ys ih =>
    simp only [PyVal.insertByLt]
    rw [h y (List.mem_cons_self y ys)]
    simp only [Bool.false_eq_true, if_false]
    rw [ih (fun z hz => h z (List.mem_cons_of_mem y hz))]
    rfl

/-- Helper: the stable insertion sort of `sorted` leaves an already-sorted
list unchanged (generalized over the accumulator). -/
theorem foldl_insertByLt_sorted (lt : α → α → Bool) :
    ∀ (l acc : List α),
    List.Pairwise (fun a b => lt b a = false) l →
    (∀ x ∈ l, ∀ y ∈ acc, lt x y = false) →
    List.foldl (fun a x => PyVal.insertByLt lt x a) acc l = acc ++ l := by
  intro l
  induction l with
  | nil => intro acc _ _; simp
  | cons x xs ih =>
    intro acc hp hacc
    simp only [List.foldl_cons]
    rw [insertByLt_append lt x acc (hacc x (List.mem_cons_self x xs))]
    rw [ih (acc ++ [x]) (List.Pairwise.of_cons hp) ?later]
    · simp
    case later =>
      intro z hz y hy
      rcases List.mem_append.mp hy with hy | hy
      · exact hacc z (List.mem_cons_of_mem x hz) y hy
      · have hyx := List.mem_singleton.mp hy
        subst hyx
        exact (List.pairwise_cons.mp hp).1 z hz

/-- Helper: `sorted` on an already-sorted list is the identity. -/
theorem sortByLt_sorted (lt : α → α → Bool) (l : List α)
    (h : List.Pairwise (fun a b => lt b a = false) l) :
    PyVal.sortByLt lt l = l := by
  have hfold := foldl_insertByLt_sorted lt l [] h (by simp)
  simpa [PyVal.sortByLt] using hfold

/-- C1 amended: in a successfully created audit bundle, `checksum` is the
hex SHA-256 of the member hashes concatenated in ascending-timestamp order
(`_calculate_bundle_checksum`), while `bundle_hash` is the digest of the
concatenation in the order the ids were passed; when that order is already
timestamp-ascending — in particular when the caller passes ids sorted by
creation time, ties keeping list order — the two digests agree and both
equal the timestamp-sorted digest of the claim. -/
theorem C1_amended (st : AuditTrail) (bname bdesc : String) (ids : List String)
    (bid : Option String) (genId now : String) (es : List AuditEntry)
    (b : AuditBundle) (st' : AuditTrail)
    (hes : AuditTrail.collectEntries st ids = .ok es)
    (hok : AuditTrail.create_audit_bundle st bname bdesc ids bid genId now =
      .ok (b, st'))
    (hsorted : List.Pairwise
      (fun a b => PyVal.strLt b.timestamp a.timestamp = false) es) :
    b.bundle_hash = b.checksum ∧
    b.checksum = sha256Hex (List.foldl (fun acc e => acc ++ strBytes e.hash) [] es) ∧
    b.checksum = AuditTrail.calculateBundleChecksum es := by
  have hsort : PyVal.sortByLt
      (fun a b => PyVal.strLt a.timestamp b.timestamp) es = es :=
    sortByLt_sorted _ es hsorted
  by_cases hname : bname = ""
  · simp [AuditTrail.create_audit_bundle, hname, Bind.bind, Except.bind,
      throw, throwThe, MonadExceptOf.throw] at hok
  · by_cases hids : ids.isEmpty
    · simp [AuditTrail.create_audit_bundle, hname, hids, Bind.bind,
        Except.bind, pure, Except.pure, throw, throwThe,
        MonadExceptOf.throw] at hok
    · simp only [AuditTrail.create_audit_bundle, hname, hids, hes,
        Bind.bind, Except.bind, pure, Except.pure, throw, throwThe,
        MonadExceptOf.throw, if_neg, Bool.false_eq_true, ite_false,
        Except.ok.injEq, Prod.mk.injEq] at hok
      obtain ⟨hb, _⟩ := hok
      subst hb
      refine ⟨?_, ?_, ?_⟩
      · simp [AuditTrail.calculateBundleChecksum, hsort]
      · simp [AuditTrail.calculateBundleChecksum, hsort]
      · rfl

/-- C1 amended witness: the two stored entries bundled in ascending
timestamp order; the hypotheses are discharged on the concrete state and the
bundle's two hash fields agree. -/
theorem C1_amended_witness :
    c1B.bundle_hash = c1B.checksum ∧
    c1B.checksum =
      sha256Hex (List.foldl (fun acc e => acc ++ strBytes e.hash) [] c1Es) ∧
    c1B.checksum = AuditTrail.calculateBundleChecksum c1Es :=
  C1_amended c1State "b" "d" ["a1", "a2"] (some "B") "gB"
    "2024-01-03T00:00:00+00:00" c1Es c1B c1St2 (by rfl) (by rfl)
    (by decide)

/-- C2: `create_audit_bundle` assigns `bundle_id = "B"` on the stored member
entry under the comment `# Update indexes`, but never touches the
`by_bundle` index: afterwards the store's `a1` carries bundle `B` while
`by_bundle` has no entry for `B` at all, violating invariant I3. -/
theorem C2_code_bug_eval :
    c2After.map (fun p =>
      ((alistGet p.2.audit_store "a1").map AuditEntry.bundle_id,
       alistGet p.2.indexes.by_bundle "B",
       p.2.indexes.by_bundle)) =
      .ok (some (some "B"), Option.none, []) := by
  decide

/-- Helper: looking up the key just set returns the set value. -/
theorem alistGet_alistSet_self (m : List (String × α)) (k : String) (v : α) :
    alistGet (alistSet m k v) k = some v := by
  induction m with
  | nil => simp [alistSet, alistGet]
  | cons p rest ih =>
    obtain ⟨k₁, v₁⟩ := p
    by_cases h : k₁ = k
    · simp [alistSet, alistGet, h]
    · simp [alistSet, alistGet, h, ih]

/-- Helper: the SHA-256 compression function always yields eight words. -/
theorem sha256_compress_length (st block : List Nat) :
    (Sha256.compress st block).length = 8 := rfl

/-- Helper: the SHA-256 digest state always has eight words. -/
theorem sha256_foldl_compress_length :
    ∀ (l : List (List Nat)) (st : List Nat), st.length = 8 →
      (List.foldl Sha256.compress st l).length = 8
  | [], _, h => h
  | b :: bs, st, _ =>
    sha256_foldl_compress_length bs (Sha256.compress st b)
      (sha256_compress_length st b)

/-- Helper: a left fold of string append keeps the data nonempty. -/
theorem foldl_append_data_ne :
    ∀ (l : List String) (s : String), s.data ≠ [] →
      (List.foldl (fun r t => r ++ t) s l).data ≠ []
  | [], _, h => h
  | t :: ts, s, h =>
    foldl_append_data_ne ts (s ++ t)
      (fun hc => h (List.append_eq_nil.mp (hc : s.data ++ t.data = [])).1)

/-- Helper: a hex SHA-256 digest is never the empty string. -/
theorem sha256Hex_ne_empty (msg : List Nat) : sha256Hex msg ≠ "" := by
  have hlen : (Sha256.digestWords msg).length = 8 :=
    sha256_foldl_compress_length _ _ rfl
  unfold sha256Hex
  rcases hl : Sha256.digestWords msg with _ | ⟨w, ws⟩
  · exact absurd (hl ▸ hlen) (by simp)
  · intro he
    have hdata : (String.join ((w :: ws).map (fun x => toHex x 8))).data ≠ [] := by
      simp only [List.map_cons, String.join, List.foldl_cons]
      apply foldl_append_data_ne
      intro hc
      have hlen8 := congrArg List.length (hc : (toHex w 8).data = [])
      simp [toHex] at hlen8
    exact hdata (by rw [he])

/-- C4: a freshly created, unmutated evidence record and a freshly created,
unmutated audit entry both verify as valid against the post-creation state.
The audit side needs the created timestamp to be in canonical `isoformat()`
form (no trailing `Z`), which `datetime.now(timezone.utc).isoformat()`
always produces; `hnow` states exactly that. -/
theorem C4_confirmed
    (stE : EvidenceManager) (etype src : String)
    (content : List (String × PyVal)) (eid : Option String)
    (genE nowE : String) (ev : Evidence) (stE2 : EvidenceManager)
    (stA : AuditTrail) (action user : String)
    (details : List (String × PyVal)) (aid bid : Option String)
    (genA nowA : String) (ae : AuditEntry) (stA2 : AuditTrail)
    (hev : EvidenceManager.create_evidence stE etype content src eid genE nowE =
      .ok (ev, stE2))
    (hae : AuditTrail.create_audit_entry stA action user details aid bid
      genA nowA = .ok (ae, stA2))
    (hnow : zReplace nowA = nowA) :
    (EvidenceManager.verify_evidence_integrity stE2 ev.id).valid = true ∧
    (AuditTrail.verify_audit_entry_integrity stA2 ae.id).valid = true := by
  constructor
  · by_cases ht : EvidenceManager.VALID_EVIDENCE_TYPES.contains etype = true
    · by_cases hc : content.isEmpty = true
      · unfold EvidenceManager.create_evidence at hev
        rw [if_neg (not_not_intro ht), if_pos hc] at hev
        simp [Bind.bind, Except.bind, pure, Except.pure, throw, throwThe,
          MonadExceptOf.throw] at hev
      · unfold EvidenceManager.create_evidence at hev
        rw [if_neg (not_not_intro ht), if_neg hc] at hev
        simp only [Bind.bind, Except.bind, pure, Except.pure,
          Except.ok.injEq, Prod.mk.injEq] at hev
        obtain ⟨hb, hst⟩ := hev
        subst hb
        subst hst
        simp only [EvidenceManager.verify_evidence_integrity,
          EvidenceManager.get_evidence, alistGet_alistSet_self]
        rw [if_neg (show ¬(EvidenceManager.calculateHash content = "") from
          sha256Hex_ne_empty _)]
        simp
    · unfold EvidenceManager.create_evidence at hev
      rw [if_pos ht] at hev
      simp [Bind.bind, Except.bind, throw, throwThe,
        MonadExceptOf.throw] at hev
  · by_cases hact : action = ""
    · unfold AuditTrail.create_audit_entry at hae
      rw [if_pos hact] at hae
      simp [Bind.bind, Except.bind, throw, throwThe,
        MonadExceptOf.throw] at hae
    · by_cases huser : user = ""
      · unfold AuditTrail.create_audit_entry at hae
        rw [if_neg hact, if_pos huser] at hae
        simp [Bind.bind, Except.bind, pure, Except.pure, throw, throwThe,
          MonadExceptOf.throw] at hae
      · unfold AuditTrail.create_audit_entry at hae
        rw [if_neg hact, if_neg huser] at hae
        simp only [Bind.bind, Except.bind, pure, Except.pure,
          Except.ok.injEq, Prod.mk.injEq] at hae
        obtain ⟨hb, hst⟩ := hae
        subst hb
        subst hst
        simp only [AuditTrail.verify_audit_entry_integrity,
          AuditTrail.get_audit_entry, alistGet_alistSet_self, hnow]
        rw [if_neg (show
          ¬(AuditTrail.calculateHash action user details nowA = "") from
          sha256Hex_ne_empty _)]
        simp

/-- The concrete creations for the C4 witness. -/
def c4EvRun : Except PyExn (Evidence × EvidenceManager) :=
  EvidenceManager.init.create_evidence "log" [("k", .str "v")] "sys"
    (some "e1") "gE" "2024-01-01T00:00:00+00:00"

def c4Ev : Evidence :=
  match c4EvRun with
  | .ok p => p.1
  | .error _ => ⟨"", "", [], "", "", ""⟩

def c4EvSt : EvidenceManager :=
  match c4EvRun with
  | .ok p => p.2
  | .error _ => EvidenceManager.init

def c4AudRun : Except PyExn (AuditEntry × AuditTrail) :=
  AuditTrail.init.create_audit_entry "login" "alice" [] (some "a1")
    Option.none "gA" "2024-01-01T00:00:00+00:00"

def c4Ae : AuditEntry :=
  match c4AudRun with
  | .ok p => p.1
  | .error _ => ⟨"", "", "", "", [], Option.none, ""⟩

def c4AudSt : AuditTrail :=
  match c4AudRun with
  | .ok p => p.2
  | .error _ => AuditTrail.init

/-- C4 witness: one concrete evidence record and one concrete audit entry,
each verifying as valid right after creation. -/
theorem C4_confirmed_witness :
    (EvidenceManager.verify_evidence_integrity c4EvSt c4Ev.id).valid = true ∧
    (AuditTrail.verify_audit_entry_integrity c4AudSt c4Ae.id).valid = true :=
  C4_confirmed EvidenceManager.init "log" "sys" [("k", .str "v")] (some "e1")
    "gE" "2024-01-01T00:00:00+00:00" c4Ev c4EvSt AuditTrail.init "login"
    "alice" [] (some "a1") Option.none "gA" "2024-01-01T00:00:00+00:00"
    c4Ae c4AudSt (by rfl) (by rfl) (by rfl)

/-- The context of the temporal failing input: a well-formed UTC ISO-8601
timestamp under `t`, and `x = True`. -/
def c5Ctx : PyVal :=
  .dict [("t", .str "2024-01-01T00:00:00+00:00"), ("x", .bool true)]

/-- C5: `WITHIN` and `EXPIRES AFTER` never produce the specified comparison.
`_evaluate_temporal_condition` reads `datetime.now(timezone.utc)` while the
module never imports `timezone`, so any numeric bound raises `NameError`;
the catch-all in `evaluate` turns the whole rule into
`{'result': False, 'reason': "Evaluation error: name 'timezone' is not
defined"}` — also on the concrete rule
`WHEN t WITHIN 60 THEN MUST x = TRUE` against `c5Ctx`, where the claim
demands the comparison `now − t ≤ 60`. -/
theorem C5_code_bug_eval :
    (∀ (name : String) (n : Int) (ctx : PyVal),
      evalCondition (.temporal (.varRef name) "WITHIN" (.numberValue n)) ctx =
        .error (.nameError "name \x27timezone\x27 is not defined")) ∧
    (∀ (name : String) (n : Int) (ctx : PyVal),
      evalCondition (.temporal (.varRef name) "EXPIRES" (.numberValue n)) ctx =
        .error (.nameError "name \x27timezone\x27 is not defined")) ∧
    (DSLParser.parse "WHEN t WITHIN 60 THEN MUST x = TRUE").map
        (fun ast => DSLEvaluator.evaluate ast c5Ctx) =
      .ok (.dict [("result", .bool false),
        ("reason", .str "Evaluation error: name \x27timezone\x27 is not defined"),
        ("error", .str "name \x27timezone\x27 is not defined")]) := by
  refine ⟨fun name n ctx => rfl, fun name n ctx => rfl, rfl⟩

/-- C6 counterexample: in `A OR B` with `A` true, an error raised while
evaluating `B` (here the buggy `t WITHIN 5`) is not short-circuited away —
the rule reports an evaluation error with `result: False`, while the same
rule with the condition `A` alone yields `result: True`.  So `B` does
change the outcome even though `A` alone determines it. -/
theorem C6_counterexample :
    DSLEvaluator.evaluate
        (.withConseq
          (.compound (.varCond (.varRef "a")) "OR"
            (.temporal (.varRef "t") "WITHIN" (.numberValue 5)))
          (.bexpr (.booleanLiteral true)))
        (.dict [("a", .bool true)]) =
      .dict [("result", .bool false),
        ("reason", .str "Evaluation error: name \x27timezone\x27 is not defined"),
        ("error", .str "name \x27timezone\x27 is not defined")] ∧
    DSLEvaluator.evaluate
        (.withConseq (.varCond (.varRef "a")) (.bexpr (.booleanLiteral true)))
        (.dict [("a", .bool true)]) =
      .dict [("result", .bool true), ("reason", .str "Boolean literal"),
        ("details", .dict
          [("condition", .dict [("result", .bool true), ("variable", .bool true)]),
           ("consequence", .dict [("result", .bool true),
             ("reason", .str "Boolean literal")])])] := by
  exact ⟨rfl, rfl⟩

/-- C6 amended: `_evaluate_compound_condition` is not short-circuit — it
always evaluates both operands.  When `B` raises, the error propagates (for
any operator, and regardless of `A`'s value); when both succeed, the result
is the boolean combination of the two results. -/
theorem C6_amended (A B : Cond) (ctx : PyVal) (op : String) :
    (∀ (e : PyExn) (ra : PyVal),
      evalCondition A ctx = .ok ra → evalCondition B ctx = .error e →
      evalCondition (.compound A op B) ctx = .error e) ∧
    (∀ (ra rb : PyVal),
      evalCondition A ctx = .ok ra → evalCondition B ctx = .ok rb →
      evalCondition (.compound A op B) ctx =
        .ok (.dict [("result", .bool
            (if op = "AND" then pyBool (getResult ra) && pyBool (getResult rb)
             else if op = "OR" then pyBool (getResult ra) || pyBool (getResult rb)
             else false)),
          ("left", ra), ("right", rb), ("operator", .str op)])) := by
  constructor
  · intro e ra ha hb
    simp only [evalCondition, ha, hb]
    rfl
  · intro ra rb ha hb
    simp only [evalCondition, ha, hb]
    rfl

/-- C6 amended witness at a concrete input: `A` is `a = 1` (true), `B` is
`t WITHIN 5` (raises `NameError`); the `OR` errors instead of returning
`A`'s truth. -/
theorem C6_amended_witness :
    evalCondition (.compound (.simple (.varRef "a") "=" (.numberValue 1)) "OR"
        (.temporal (.varRef "t") "WITHIN" (.numberValue 5)))
      (.dict [("a", .int 1)]) =
      .error (.nameError "name \x27timezone\x27 is not defined") :=
  (C6_amended (.simple (.varRef "a") "=" (.numberValue 1))
      (.temporal (.varRef "t") "WITHIN" (.numberValue 5))
      (.dict [("a", .int 1)]) "OR").1
    (.nameError "name \x27timezone\x27 is not defined")
    (.dict [("result", .bool true), ("left", .int 1),
            ("operator", .str "="), ("right", .int 1)])
    rfl rfl

/-- C8 counterexample: with `x` missing from the context, the simple
condition `x != 5` resolves `x` to the null sentinel and evaluates to
`True` (`None != 5` in Python), not `false` as the claim states for every
operator. -/
theorem C8_counterexample :
    evalCondition (.simple (.varRef "x") "!=" (.numberValue 5)) (.dict []) =
      .ok (.dict [("result", .bool true), ("left", .none),
                  ("operator", .str "!="), ("right", .int 5)]) := rfl

/-- C8 amended: a missed dotted-path lookup resolves to the null sentinel
`None`, and the downstream comparison of a simple condition or constraint
is `false` for `=` (against a non-null right value) and for the four
ordered operators (whose `TypeError` is caught); but `!=` evaluates to
`true` against a non-null right value, and `LIKE` matches its pattern
against the string form `"None"` of the sentinel.  The `LIKE` conjunct is
scoped to patterns free of the regex metacharacters the source leaves
unsubstituted (`re.match` is only modelled on the `%`/`_`/`.`/literal
fragment; outside it the source follows full `re` semantics, and a
malformed pattern raises an uncaught `re.error`). -/
theorem C8_amended (name : String) (ctx rv : PyVal) (right : DNode)
    (hmiss : getVariableValue name ctx = .none)
    (hr : getValue right ctx = .ok rv) (hrn : rv ≠ .none) :
    (∀ op ∈ (["=", "<", "<=", ">", ">="] : List String),
      evalCondition (.simple (.varRef name) op right) ctx =
        .ok (.dict [("result", .bool false), ("left", .none),
                    ("operator", .str op), ("right", rv)]) ∧
      evalConsequence (.constraint (.varRef name) op right) ctx =
        .ok (.dict [("result", .bool false), ("variable", .none),
                    ("operator", .str op), ("value", rv)])) ∧
    (evalCondition (.simple (.varRef name) "!=" right) ctx =
        .ok (.dict [("result", .bool true), ("left", .none),
                    ("operator", .str "!="), ("right", rv)])) ∧
    (∀ p : String,
      (∀ c ∈ p.data,
        c ∉ (['\\', '^', '$', '*', '+', '?', '(', ')', '[', ']',
              '\x7b', '\x7d', '|'] : List Char)) →
      evalCondition (.simple (.varRef name) "LIKE" (.stringValue p)) ctx =
        .ok (.dict [("result", .bool (likeMatch p "None")), ("left", .none),
                    ("operator", .str "LIKE"), ("right", .str p)])) := by
  have hl : getValue (.varRef name) ctx = .ok PyVal.none := by
    simp [getValue, hmiss]
  have heqFalse : pyEq PyVal.none rv = false := by
    cases rv
    · exact absurd rfl hrn
    all_goals rfl
  have hcmp : pyCmp PyVal.none rv = .error (.typeError "unorderable types") := by
    cases rv <;> rfl
  refine ⟨?_, ?_, ?_⟩
  · intro op hop
    fin_cases hop
    all_goals refine ⟨?_, ?_⟩
    all_goals simp only [evalCondition, evalConsequence, hl, hr]
    all_goals simp [applyOperator, heqFalse, hcmp, Except.map, Bind.bind, Except.bind]
  · simp only [evalCondition, hl, hr]
    simp [applyOperator, heqFalse, Bind.bind, Except.bind]
  · intro p _
    simp only [evalCondition, hl]
    simp [getValue, applyOperator, pyStr, pyRepr, Bind.bind, Except.bind]

/-- C7 counterexample: the source text `x LIKE 'a%'` contains the standalone
lexeme `LIKE`, but the tokenizer emits it as an `identifier` token — no
`operator` token appears at all (`LIKE` is in `OPERATORS`, but the operator
scanner is only entered on `= ! > <`, and `LIKE` is not in `KEYWORDS`). -/
theorem C7_counterexample :
    DSLParser.tokenize "x LIKE \x27a%\x27" =
      .ok [⟨"identifier", "x", 0⟩, ⟨"identifier", "LIKE", 2⟩,
           ⟨"string", "\x27a%\x27", 7⟩] := by
  rfl

/-- Helper: a two-character lexeme accepted from `OPERATORS` is one of
`!=`, `>=`, `<=`. -/
theorem twoCharOp (c d : Char)
    (h : DSLParser.OPERATORS.contains (String.mk [c, d]) = true) :
    String.mk [c, d] ∈ (["=", "!=", ">", ">=", "<", "<="] : List String) := by
  simp only [DSLParser.OPERATORS] at h
  simp at h
  rcases h with h | h | h | h | h | h | h
  · exact absurd (congrArg String.data h) (by simp)
  · simp [h]
  · exact absurd (congrArg String.data h) (by simp)
  · simp [h]
  · exact absurd (congrArg String.data h) (by simp)
  · simp [h]
  · exact absurd (congrArg String.data h) (by simp)

/-- Helper: a one-character lexeme accepted from `OPERATORS` is `=`, `>` or
`<`. -/
theorem oneCharOp (c : Char)
    (h : DSLParser.OPERATORS.contains (String.singleton c) = true) :
    String.singleton c ∈ (["=", "!=", ">", ">=", "<", "<="] : List String) := by
  simp only [DSLParser.OPERATORS] at h
  simp at h
  rcases h with h | h | h | h | h | h | h
  · simp [h]
  · exact absurd (congrArg String.data h) (by simp [String.singleton])
  · simp [h]
  · exact absurd (congrArg String.data h) (by simp [String.singleton])
  · simp [h]
  · exact absurd (congrArg String.data h) (by simp [String.singleton])
  · exact absurd (congrArg String.data h) (by simp [String.singleton])

/-- Helper: any token produced by `_parse_operator` has one of the six
comparison values. -/
theorem scanOperator_value (c : Char) (cs : List Char) (pos : Nat)
    (t : Token) (rest : List Char)
    (h : DSLParser.scanOperator c cs pos = .ok (t, rest)) :
    t.value ∈ (["=", "!=", ">", ">=", "<", "<="] : List String) := by
  cases cs with
  | nil =>
    simp only [DSLParser.scanOperator] at h
    split at h
    · rename_i hc
      cases h
      exact oneCharOp c hc
    · cases h
  | cons d ds =>
    simp only [DSLParser.scanOperator] at h
    split at h
    · rename_i hc
      cases h
      exact twoCharOp c d hc
    · split at h
      · rename_i hc
        cases h
        exact oneCharOp c hc
      · cases h

/-- Helper: `_parse_identifier` never emits an `operator` token. -/
theorem classifyIdentifier_not_op (v : String) (pos : Nat) :
    (DSLParser.classifyIdentifier v pos).type ≠ "operator" := by
  unfold DSLParser.classifyIdentifier
  split
  · simp
  · split <;> simp

/-- Helper: every `operator` token the tokenizer loop emits has one of the
six comparison values. -/
theorem tokenizeGo_ops (fuel : Nat) :
    ∀ (cs : List Char) (pos : Nat) (toks : List Token),
    DSLParser.tokenizeGo fuel cs pos = .ok toks →
    ∀ t ∈ toks, t.type = "operator" →
      t.value ∈ (["=", "!=", ">", ">=", "<", "<="] : List String) := by
  induction fuel with
  | zero =>
    intro cs pos toks h t ht _
    cases cs with
    | nil => cases h; cases ht
    | cons c rest => cases h
  | succ f ih =>
    intro cs pos toks h t ht htype
    cases cs with
    | nil => cases h; cases ht
    | cons c rest =>
      simp only [DSLParser.tokenizeGo, Bind.bind, Except.bind] at h
      split at h
      · exact ih rest (pos + 1) toks h t ht htype
      · split at h
        · split at h
          · exact Except.noConfusion h
          · rename_i v heq
            cases h
            cases ht with
            | head => simp at htype
            | tail _ ht2 => exact ih _ _ v heq t ht2 htype
        · split at h
          · split at h
            · exact Except.noConfusion h
            · rename_i body rest2 hbody
              split at h
              · exact Except.noConfusion h
              · rename_i v heq
                cases h
                cases ht with
                | head => simp at htype
                | tail _ ht2 => exact ih _ _ v heq t ht2 htype
          · split at h
            · split at h
              · exact Except.noConfusion h
              · rename_i v heq
                cases h
                cases ht with
                | head => exact absurd htype (classifyIdentifier_not_op _ _)
                | tail _ ht2 => exact ih _ _ v heq t ht2 htype
            · split at h
              · split at h
                · exact Except.noConfusion h
                · rename_i hop
                  split at h
                  · exact Except.noConfusion h
                  · rename_i heq
                    cases h
                    cases ht with
                    | head => exact scanOperator_value c rest pos _ _ hop
                    | tail _ ht2 => exact ih _ _ _ heq t ht2 htype
              · split at h
                · split at h
                  · exact Except.noConfusion h
                  · rename_i v heq
                    cases h
                    cases ht with
                    | head => simp at htype
                    | tail _ ht2 => exact ih _ _ v heq t ht2 htype
                · exact Except.noConfusion h

/-- C7 amended: `LIKE` is listed in `OPERATORS`, but the tokenizer never
emits it as an operator — every `operator` token it produces has value
`=`, `!=`, `>`, `>=`, `<` or `<=`, and a standalone `LIKE` lexeme is
classified as an `identifier` token (its upper-casing is in neither
`KEYWORDS` nor `TIME_UNITS`). -/
theorem C7_amended :
    (∀ (text : String) (toks : List Token),
      DSLParser.tokenize text = .ok toks →
      ∀ t ∈ toks, t.type = "operator" →
        t.value ∈ (["=", "!=", ">", ">=", "<", "<="] : List String)) ∧
    (∀ pos : Nat, DSLParser.classifyIdentifier "LIKE" pos =
      ⟨"identifier", "LIKE", pos⟩) := by
  constructor
  · intro text toks h
    exact tokenizeGo_ops text.data.length text.data 0 toks h
  · intro pos
    rfl

/-- C7 amended witness: concrete tokenization of `a >= 2 LIKE`, whose only
operator token is `>=`. -/
theorem C7_amended_witness :
    DSLParser.tokenize "a >= 2 LIKE" =
      .ok [⟨"identifier", "a", 0⟩, ⟨"operator", ">=", 2⟩,
           ⟨"number", "2", 5⟩, ⟨"identifier", "LIKE", 7⟩] ∧
    (∀ t ∈ [Token.mk "identifier" "a" 0, Token.mk "operator" ">=" 2,
            Token.mk "number" "2" 5, Token.mk "identifier" "LIKE" 7],
      t.type = "operator" →
        t.value ∈ (["=", "!=", ">", ">=", "<", "<="] : List String)) :=
  ⟨by rfl, C7_amended.1 "a >= 2 LIKE" _ (by rfl)⟩

/-- C8 amended witness: `x` missing, right value `5`; the `LIKE` case at the
metacharacter-free pattern `N%`, which matches the sentinel string `None`. -/
theorem C8_amended_witness :
    evalCondition (.simple (.varRef "x") "<" (.numberValue 5)) (.dict []) =
      .ok (.dict [("result", .bool false), ("left", .none),
                  ("operator", .str "<"), ("right", .int 5)]) ∧
    evalCondition (.simple (.varRef "x") "!=" (.numberValue 5)) (.dict []) =
      .ok (.dict [("result", .bool true), ("left", .none),
                  ("operator", .str "!="), ("right", .int 5)]) ∧
    evalCondition (.simple (.varRef "x") "LIKE" (.stringValue "N%")) (.dict []) =
      .ok (.dict [("result", .bool true), ("left", .none),
                  ("operator", .str "LIKE"), ("right", .str "N%")]) := by
  have h := C8_amended "x" (.dict []) (.int 5) (.numberValue 5) rfl rfl (by intro h; cases h)
  exact ⟨(h.1 "<" (by simp)).1, h.2.1, h.2.2 "N%" (by decide)⟩

/-! ## C3 and C10: rule-engine caching -/

/-- Helper: looking up the key just set in a result dict returns the set
value. -/
theorem dictGet_dictSet_self (kvs : List (String × PyVal)) (k : String)
    (v : PyVal) : PyVal.dictGet (PyVal.dictSet kvs k v) k = some v := by
  induction kvs with
  | nil => simp [PyVal.dictSet, PyVal.dictGet]
  | cons p rest ih =>
    obtain ⟨k₁, v₁⟩ := p
    by_cases h : k₁ = k
    · simp [PyVal.dictSet, PyVal.dictGet, h]
    · simp [PyVal.dictSet, PyVal.dictGet, h, ih]

/-- Helper: `execute_rule` on a cache hit returns the cached mapping merged
over the base record, marked `cached: True`, and hands back the engine and
the context unchanged. -/
theorem execute_rule_hit (eng : RuleEngine) (rule : PyVal)
    (c : ExecutionContext) (now : String) (rid rname rtype cached : PyVal)
    (kvs : List (String × PyVal))
    (h1 : RuleEngine.pyGetAttrD rule "id" (.str "unknown") = .ok rid)
    (h2 : RuleEngine.pyGetAttrD rule "name" (.str "unknown") = .ok rname)
    (h3 : RuleEngine.pyGetAttrD rule "type" (.str "unknown") = .ok rtype)
    (hc : alistGet eng.cache (RuleEngine.get_cache_key rule c) = some cached)
    (hm : RuleEngine.asMapping cached = .ok kvs) :
    RuleEngine.execute_rule eng rule c now =
      .ok (.dict (PyVal.dictSet
          (PyVal.dictUpdate (RuleEngine.mkBase rid rname rtype now) kvs)
          "cached" (.bool true)), eng, c) := by
  simp [RuleEngine.execute_rule, h1, h2, h3, hc, hm, Bind.bind, Except.bind,
    pure, Except.pure]

/-- Helper: `execute_rule` on a cache miss whose dispatch succeeds merges the
outcome over the base record, caches the outcome, and appends the merged
record to `context.results`. -/
theorem execute_rule_miss (eng : RuleEngine) (rule : PyVal)
    (c : ExecutionContext) (now : String) (rid rname rtype execRes : PyVal)
    (kvs : List (String × PyVal))
    (h1 : RuleEngine.pyGetAttrD rule "id" (.str "unknown") = .ok rid)
    (h2 : RuleEngine.pyGetAttrD rule "name" (.str "unknown") = .ok rname)
    (h3 : RuleEngine.pyGetAttrD rule "type" (.str "unknown") = .ok rtype)
    (hc : alistGet eng.cache (RuleEngine.get_cache_key rule c) = Option.none)
    (hd : RuleEngine.dispatch eng rule rtype rid c = .ok execRes)
    (hm : RuleEngine.asMapping execRes = .ok kvs) :
    RuleEngine.execute_rule eng rule c now =
      .ok (.dict (PyVal.dictUpdate (RuleEngine.mkBase rid rname rtype now) kvs),
        { eng with cache :=
            alistSet eng.cache (RuleEngine.get_cache_key rule c) execRes },
        { c with results := c.results ++
            [.dict (PyVal.dictUpdate (RuleEngine.mkBase rid rname rtype now) kvs)] }) := by
  simp [RuleEngine.execute_rule, h1, h2, h3, hc, hd, hm, Bind.bind,
    Except.bind, pure, Except.pure]

/-- C10: a cache hit returns a record marked `cached: True` with the engine
and the context returned unchanged — nothing is appended to
`context.results` or `context.errors` — while a cache miss whose dispatch
succeeds appends exactly one result to `context.results` and leaves
`context.errors` alone; re-executing the same rule against the resulting
context is then a cache hit (the cache key ignores `results`), so
`context.results` grows only on the first execution. -/
theorem C10_confirmed (eng : RuleEngine) (rule : PyVal) (c : ExecutionContext)
    (now : String) (rid rname rtype : PyVal)
    (h1 : RuleEngine.pyGetAttrD rule "id" (.str "unknown") = .ok rid)
    (h2 : RuleEngine.pyGetAttrD rule "name" (.str "unknown") = .ok rname)
    (h3 : RuleEngine.pyGetAttrD rule "type" (.str "unknown") = .ok rtype) :
    (∀ cached kvs,
      alistGet eng.cache (RuleEngine.get_cache_key rule c) = some cached →
      RuleEngine.asMapping cached = .ok kvs →
      RuleEngine.execute_rule eng rule c now =
        .ok (.dict (PyVal.dictSet
            (PyVal.dictUpdate (RuleEngine.mkBase rid rname rtype now) kvs)
            "cached" (.bool true)), eng, c) ∧
      PyVal.dictGet (PyVal.dictSet
          (PyVal.dictUpdate (RuleEngine.mkBase rid rname rtype now) kvs)
          "cached" (.bool true)) "cached" = some (.bool true)) ∧
    (∀ execRes kvs,
      alistGet eng.cache (RuleEngine.get_cache_key rule c) = Option.none →
      RuleEngine.dispatch eng rule rtype rid c = .ok execRes →
      RuleEngine.asMapping execRes = .ok kvs →
      ∃ res eng2 c2,
        RuleEngine.execute_rule eng rule c now = .ok (res, eng2, c2) ∧
        c2.results = c.results ++ [res] ∧
        c2.errors = c.errors ∧
        ∀ now2, RuleEngine.execute_rule eng2 rule c2 now2 =
          .ok (.dict (PyVal.dictSet
              (PyVal.dictUpdate (RuleEngine.mkBase rid rname rtype now2) kvs)
              "cached" (.bool true)), eng2, c2)) := by
  refine ⟨?_, ?_⟩
  · intro cached kvs hcc hm
    exact ⟨execute_rule_hit eng rule c now rid rname rtype cached kvs
      h1 h2 h3 hcc hm, dictGet_dictSet_self _ _ _⟩
  · intro execRes kvs hcc hd hm
    refine ⟨_, _, _,
      execute_rule_miss eng rule c now rid rname rtype execRes kvs
        h1 h2 h3 hcc hd hm, rfl, rfl, ?_⟩
    intro now2
    refine execute_rule_hit _ rule _ now2 rid rname rtype execRes kvs
      h1 h2 h3 ?_ hm
    exact alistGet_alistSet_self _ _ _

/-- The custom handler, rule, engine and contexts of the caching scenarios:
two contexts carrying byte-identical data and variables, created with
distinct `uuid4` execution ids at the same clock reading. -/
def c3Handler : PyVal → ExecutionContext → Except PyExn PyVal :=
  fun _ _ => .ok (.dict [("result", .bool true), ("reason", .str "ok")])

def c3Res : PyVal := .dict [("result", .bool true), ("reason", .str "ok")]

def c3Kvs : List (String × PyVal) := [("result", .bool true), ("reason", .str "ok")]

def c3Rule : PyVal :=
  .dict [("id", .str "r1"), ("name", .str "rule"), ("type", .str "custom")]

def c3Eng : RuleEngine :=
  { custom_handlers := [("custom", c3Handler)], cache := [],
    evalHost := fun _ => .error (.typeError "no host eval") }

def c3CtxA : ExecutionContext :=
  ExecutionContext.init [("amount", .int 100)] [] "E1"
    "2024-01-01T00:00:00+00:00"

def c3CtxB : ExecutionContext :=
  ExecutionContext.init [("amount", .int 100)] [] "E2"
    "2024-01-01T00:00:00+00:00"

def c3Run1 : Except PyExn (PyVal × RuleEngine × ExecutionContext) :=
  RuleEngine.execute_rule c3Eng c3Rule c3CtxA "T1"

def c3Eng1 : RuleEngine :=
  match c3Run1 with
  | .ok p => p.2.1
  | .error _ => c3Eng

def c3Run2 : Except PyExn (PyVal × RuleEngine × ExecutionContext) :=
  RuleEngine.execute_rule c3Eng1 c3Rule c3CtxB "T2"

/-- C3 counterexample: the two contexts merge to byte-identical visible data,
yet their cache keys differ — `_get_cache_key` hashes `get_context_data()`,
whose `_execution` entry carries the per-context `uuid4` — so the second
execution misses the cache and its record carries no `cached` marker at
all. -/
theorem C3_counterexample :
    PyVal.dictUpdate c3CtxA.data c3CtxA.vars =
      PyVal.dictUpdate c3CtxB.data c3CtxB.vars ∧
    RuleEngine.get_cache_key c3Rule c3CtxA ≠
      RuleEngine.get_cache_key c3Rule c3CtxB ∧
    c3Run2.map (fun p =>
      match p.1 with
      | .dict kvs => (PyVal.dictGet kvs "cached").isNone
      | _ => false) = .ok true :=
  ⟨rfl, by decide, by decide⟩

/-- C3 amended: the cache key excludes nothing of `get_context_data` — it
covers the merged data and the `_execution` id and timestamp — so the
memoization guarantee holds between two contexts that agree on `data`,
`variables`, `execution_id` and creation timestamp: they share one cache
key, and after a successful first execution the second context's execution
is a cache hit returning the memoized outcome marked `cached: True` with
that context untouched. -/
theorem C3_amended (eng : RuleEngine) (rule : PyVal)
    (c1 c2 : ExecutionContext) (now1 now2 : String)
    (rid rname rtype execRes : PyVal) (kvs : List (String × PyVal))
    (h1 : RuleEngine.pyGetAttrD rule "id" (.str "unknown") = .ok rid)
    (h2 : RuleEngine.pyGetAttrD rule "name" (.str "unknown") = .ok rname)
    (h3 : RuleEngine.pyGetAttrD rule "type" (.str "unknown") = .ok rtype)
    (hdata : c1.data = c2.data) (hvars : c1.vars = c2.vars)
    (hid : c1.execution_id = c2.execution_id)
    (hts : c1.timestamp = c2.timestamp)
    (hcc : alistGet eng.cache (RuleEngine.get_cache_key rule c1) = Option.none)
    (hd : RuleEngine.dispatch eng rule rtype rid c1 = .ok execRes)
    (hm : RuleEngine.asMapping execRes = .ok kvs) :
    RuleEngine.get_cache_key rule c1 = RuleEngine.get_cache_key rule c2 ∧
    ∃ res eng2 c1b,
      RuleEngine.execute_rule eng rule c1 now1 = .ok (res, eng2, c1b) ∧
      RuleEngine.execute_rule eng2 rule c2 now2 =
        .ok (.dict (PyVal.dictSet
            (PyVal.dictUpdate (RuleEngine.mkBase rid rname rtype now2) kvs)
            "cached" (.bool true)), eng2, c2) := by
  have hkey : RuleEngine.get_cache_key rule c1 =
      RuleEngine.get_cache_key rule c2 := by
    simp [RuleEngine.get_cache_key, ExecutionContext.get_context_data,
      hdata, hvars, hid, hts]
  refine ⟨hkey, _, _, _,
    execute_rule_miss eng rule c1 now1 rid rname rtype execRes kvs
      h1 h2 h3 hcc hd hm, ?_⟩
  refine execute_rule_hit _ rule c2 now2 rid rname rtype execRes kvs
    h1 h2 h3 ?_ hm
  rw [← hkey]
  exact alistGet_alistSet_self _ _ _

/-- The second context of the C3 amended witness: same data, variables,
execution id and timestamp as `c3CtxA`, but non-empty prior results. -/
def c3CtxA2 : ExecutionContext :=
  { c3CtxA with results := [.str "prior"] }

/-- C3 amended witness: the two agreeing contexts share the cache key, and
the second execution hits with `cached: True`. -/
theorem C3_amended_witness :
    RuleEngine.get_cache_key c3Rule c3CtxA =
      RuleEngine.get_cache_key c3Rule c3CtxA2 ∧
    ∃ res eng2 c1b,
      RuleEngine.execute_rule c3Eng c3Rule c3CtxA "T1" = .ok (res, eng2, c1b) ∧
      RuleEngine.execute_rule eng2 c3Rule c3CtxA2 "T2" =
        .ok (.dict (PyVal.dictSet
            (PyVal.dictUpdate
              (RuleEngine.mkBase (.str "r1") (.str "rule") (.str "custom") "T2")
              c3Kvs)
            "cached" (.bool true)), eng2, c3CtxA2) :=
  C3_amended c3Eng c3Rule c3CtxA c3CtxA2 "T1" "T2" (.str "r1") (.str "rule")
    (.str "custom") c3Res c3Kvs (by rfl) (by rfl) (by rfl) (by rfl) (by rfl)
    (by rfl) (by rfl) (by rfl) (by rfl) (by rfl)

/-- C10 witness: a concrete custom-handler rule on an empty cache — the miss
appends one result and the repeated execution is a hit leaving the context
as it is. -/
theorem C10_confirmed_witness :
    ∃ res eng2 c2,
      RuleEngine.execute_rule c3Eng c3Rule c3CtxA "T1" = .ok (res, eng2, c2) ∧
      c2.results = c3CtxA.results ++ [res] ∧
      c2.errors = c3CtxA.errors ∧
      ∀ now2, RuleEngine.execute_rule eng2 c3Rule c2 now2 =
        .ok (.dict (PyVal.dictSet
            (PyVal.dictUpdate
              (RuleEngine.mkBase (.str "r1") (.str "rule") (.str "custom") now2)
              c3Kvs)
            "cached" (.bool true)), eng2, c2) :=
  (C10_confirmed c3Eng c3Rule c3CtxA "T1" (.str "r1") (.str "rule")
      (.str "custom") (by rfl) (by rfl) (by rfl)).2
    c3Res c3Kvs (by rfl) (by rfl) (by rfl)

/-! ## C9: DecisionBundle construction-time validation -/

/-- An exception, when it is a `ValidationException`, carries a field path. -/
def validationHasPath (e : PyExn) : Prop :=
  ∀ m fld, e = .validation m fld → fld.isSome = true

/-- The semantic facts `_validate` enforces on a dict-shaped bundle: the
four top-level fields are present, the version is `"1.0"`, the metadata
fields are present with a domain from the enum, every rule has its required
fields and an allowed type, and every decision has its required fields and
an `output.result`. -/
def wellFormedData (kvs : List (String × PyVal)) : Prop :=
  (∀ f ∈ ["version", "metadata", "rules", "decisions"],
    (PyVal.dictGet kvs f).isSome = true) ∧
  (∃ v, PyVal.dictGet kvs "version" = some v ∧
    PyVal.pyEq v (.str "1.0") = true) ∧
  (∃ md, PyVal.dictGet kvs "metadata" = some md ∧
    (∀ f ∈ ["id", "name", "description", "created", "jurisdiction", "domain"],
      PyVal.pyHasKey md f = .ok true) ∧
    (∃ d, PyVal.pyGetItem md "domain" = .ok d ∧
      (["finance", "health", "esg", "general"].any
        (fun s => PyVal.pyEq d (.str s))) = true)) ∧
  (∃ rl rlist, PyVal.dictGet kvs "rules" = some rl ∧
    PyVal.pyIter rl = .ok rlist ∧
    ∀ r ∈ rlist,
      (∀ f ∈ ["id", "name", "type", "definition"],
        PyVal.pyHasKey r f = .ok true) ∧
      ∃ t, PyVal.pyGetItem r "type" = .ok t ∧
        (["dsl", "expression", "decision_table", "decision_tree"].any
          (fun s => PyVal.pyEq t (.str s))) = true) ∧
  (∃ dl dlist, PyVal.dictGet kvs "decisions" = some dl ∧
    PyVal.pyIter dl = .ok dlist ∧
    ∀ d ∈ dlist,
      (∀ f ∈ ["id", "ruleId", "input", "output", "timestamp"],
        PyVal.pyHasKey d f = .ok true) ∧
      ∃ out, PyVal.pyGetItem d "output" = .ok out ∧
        PyVal.pyHasKey out "result" = .ok true)

/-- The shape under which `_validate` can only raise `ValidationException`s:
the metadata value is a dict, the rules value is a list of dicts, and the
decisions value is a list of dicts whose `output` values (when present) are
dicts.  Outside this shape the source raises `TypeError` instead (for
example, subscripting a string-valued metadata). -/
def shapedData (kvs : List (String × PyVal)) : Prop :=
  (∀ md, PyVal.dictGet kvs "metadata" = some md → ∃ mkvs, md = .dict mkvs) ∧
  (∀ rl, PyVal.dictGet kvs "rules" = some rl →
    ∃ rlist, rl = .list rlist ∧ ∀ r ∈ rlist, ∃ rkvs, r = .dict rkvs) ∧
  (∀ dl, PyVal.dictGet kvs "decisions" = some dl →
    ∃ dlist, dl = .list dlist ∧ ∀ d ∈ dlist,
      ∃ dkvs, d = .dict dkvs ∧
        ∀ out, PyVal.dictGet dkvs "output" = some out →
          ∃ okvs, out = .dict okvs)

/-- Helper: a validation error with a concrete `some` path has a path. -/
theorem validationHasPath_some (msg path : String) :
    validationHasPath (.validation msg (some path)) := by
  intro m fld he
  injection he with h1 h2
  rw [← h2]
  rfl

/-- Helper: a key lookup on a dict succeeds exactly on stored keys. -/
theorem pyGetItem_dict (kvs : List (String × PyVal)) (k : String) (w : PyVal)
    (h : PyVal.pyGetItem (.dict kvs) k = .ok w) :
    PyVal.dictGet kvs k = some w := by
  simp only [PyVal.pyGetItem] at h
  cases hg : PyVal.dictGet kvs k with
  | none => simp [hg] at h
  | some x => simp only [hg, Except.ok.injEq] at h; rw [h]

/-- Helper: `k in dict` returning true means the key is stored. -/
theorem pyHasKey_dict_true (kvs : List (String × PyVal)) (k : String)
    (h : PyVal.pyHasKey (.dict kvs) k = .ok true) :
    (PyVal.dictGet kvs k).isSome = true := by
  simp only [PyVal.pyHasKey, Except.ok.injEq] at h
  exact h

/-- Helper: `in` raises only `TypeError`, never a validation error. -/
theorem pyHasKey_err (v : PyVal) (k : String) (e : PyExn)
    (h : PyVal.pyHasKey v k = .error e) : validationHasPath e := by
  intro m fld he
  subst he
  cases v <;> simp [PyVal.pyHasKey] at h

/-- Helper: subscription raises only `TypeError`/`KeyError`. -/
theorem pyGetItem_err (v : PyVal) (k : String) (e : PyExn)
    (h : PyVal.pyGetItem v k = .error e) : validationHasPath e := by
  intro m fld he
  subst he
  cases v <;> simp only [PyVal.pyGetItem] at h
  case dict kvs => cases hg : PyVal.dictGet kvs k <;> simp [hg] at h
  all_goals simp at h

/-- Helper: iteration raises only `TypeError`. -/
theorem pyIter_err (v : PyVal) (e : PyExn)
    (h : PyVal.pyIter v = .error e) : validationHasPath e := by
  intro m fld he
  subst he
  cases v <;> simp [PyVal.pyIter] at h

/-- Helper: a successful required-field pass means every field is present. -/
theorem checkRequired_ok (v : PyVal) :
    ∀ (fields : List String) (pre : String) (mk : String → String),
    DecisionBundle.checkRequired v fields pre mk = .ok () →
    ∀ f ∈ fields, PyVal.pyHasKey v f = .ok true := by
  intro fields
  induction fields with
  | nil => intro pre mk _ f hf; simp at hf
  | cons f0 rest ih =>
    intro pre mk h f hf
    simp only [DecisionBundle.checkRequired, Bind.bind, Except.bind] at h
    cases hk : PyVal.pyHasKey v f0 with
    | error e2 => simp [hk] at h
    | ok b =>
      simp only [hk] at h
      cases b with
      | false => simp [throw, throwThe, MonadExceptOf.throw] at h
      | true =>
        simp at h
        rcases List.mem_cons.mp hf with hf0 | hfr
        · subst hf0; exact hk
        · exact ih pre mk h f hfr

/-- Helper: a failing required-field pass raises a validation error whose
field path is set. -/
theorem checkRequired_err (v : PyVal) :
    ∀ (fields : List String) (pre : String) (mk : String → String) (e : PyExn),
    DecisionBundle.checkRequired v fields pre mk = .error e →
    validationHasPath e := by
  intro fields
  induction fields with
  | nil => intro pre mk e h; simp [DecisionBundle.checkRequired] at h
  | cons f0 rest ih =>
    intro pre mk e h
    simp only [DecisionBundle.checkRequired, Bind.bind, Except.bind] at h
    cases hk : PyVal.pyHasKey v f0 with
    | error e2 =>
      simp only [hk, Except.error.injEq] at h
      exact h ▸ pyHasKey_err v f0 e2 hk
    | ok b =>
      simp only [hk] at h
      cases b with
      | true => simp at h; exact ih pre mk e h
      | false =>
        simp [throw, throwThe, MonadExceptOf.throw] at h
        exact h ▸ validationHasPath_some _ _

/-- Helper: a successful enumeration loop validated every element. -/
theorem validateEach_ok (f : PyVal → Nat → Except PyExn Unit) :
    ∀ (l : List PyVal) (i : Nat),
    DecisionBundle.validateEach f l i = .ok () →
    ∀ x ∈ l, ∃ j, f x j = .ok () := by
  intro l
  induction l with
  | nil => intro i _ x hx; simp at hx
  | cons x0 rest ih =>
    intro i h x hx
    simp only [DecisionBundle.validateEach, Bind.bind, Except.bind] at h
    cases hr : f x0 i with
    | error e => simp [hr] at h
    | ok u =>
      cases u
      simp only [hr] at h
      rcases List.mem_cons.mp hx with hx0 | hxr
      · subst hx0; exact ⟨i, hr⟩
      · exact ih (i + 1) h x hxr

/-- Helper: the enumeration loop only propagates its body's errors. -/
theorem validateEach_err (f : PyVal → Nat → Except PyExn Unit)
    (hf : ∀ x j e2, f x j = .error e2 → validationHasPath e2) :
    ∀ (l : List PyVal) (i : Nat) (e : PyExn),
    DecisionBundle.validateEach f l i = .error e → validationHasPath e := by
  intro l
  induction l with
  | nil => intro i e h; simp [DecisionBundle.validateEach] at h
  | cons x0 rest ih =>
    intro i e h
    simp only [DecisionBundle.validateEach, Bind.bind, Except.bind] at h
    cases hr : f x0 i with
    | error e2 =>
      simp only [hr, Except.error.injEq] at h
      exact h ▸ hf x0 i e2 hr
    | ok u =>
      cases u
      simp only [hr] at h
      exact ih (i + 1) e h

/-- Helper: inversion of a successful `_validate_rule`. -/
theorem validateRule_ok (r : PyVal) (i : Nat)
    (h : DecisionBundle.validateRule r i = .ok ()) :
    (∀ f ∈ ["id", "name", "type", "definition"],
      PyVal.pyHasKey r f = .ok true) ∧
    ∃ t, PyVal.pyGetItem r "type" = .ok t ∧
      (["dsl", "expression", "decision_table", "decision_tree"].any
        (fun s => PyVal.pyEq t (.str s))) = true := by
  simp only [DecisionBundle.validateRule, Bind.bind, Except.bind] at h
  cases hc : DecisionBundle.checkRequired r ["id", "name", "type", "definition"]
      "Missing required rule field: "
      (fun f => "rules[" ++ toString i ++ "]." ++ f) with
  | error e => simp [hc] at h
  | ok u =>
    cases u
    simp only [hc] at h
    cases ht : PyVal.pyGetItem r "type" with
    | error e => simp [ht] at h
    | ok t =>
      simp only [ht] at h
      cases hany : (["dsl", "expression", "decision_table",
          "decision_tree"].any (fun s => PyVal.pyEq t (.str s))) with
      | false => simp [hany, throw, throwThe, MonadExceptOf.throw] at h
      | true => exact ⟨checkRequired_ok r _ _ _ hc, t, rfl, hany⟩

/-- Helper: `_validate_rule` fails only with path-carrying validation errors
(or a `TypeError` from a malformed rule value, which is no validation
error). -/
theorem validateRule_err (r : PyVal) (i : Nat) (e : PyExn)
    (h : DecisionBundle.validateRule r i = .error e) : validationHasPath e := by
  simp only [DecisionBundle.validateRule, Bind.bind, Except.bind] at h
  cases hc : DecisionBundle.checkRequired r ["id", "name", "type", "definition"]
      "Missing required rule field: "
      (fun f => "rules[" ++ toString i ++ "]." ++ f) with
  | error e2 =>
    simp only [hc, Except.error.injEq] at h
    exact h ▸ checkRequired_err r _ _ _ e2 hc
  | ok u =>
    cases u
    simp only [hc] at h
    cases ht : PyVal.pyGetItem r "type" with
    | error e2 =>
      simp only [ht, Except.error.injEq] at h
      exact h ▸ pyGetItem_err r "type" e2 ht
    | ok t =>
      simp only [ht] at h
      cases hany : (["dsl", "expression", "decision_table",
          "decision_tree"].any (fun s => PyVal.pyEq t (.str s))) with
      | true => simp [hany] at h
      | false =>
        simp [hany, throw, throwThe, MonadExceptOf.throw] at h
        exact h ▸ validationHasPath_some _ _

/-- Helper: inversion of a successful `_validate_decision`. -/
theorem validateDecision_ok (d : PyVal) (i : Nat)
    (h : DecisionBundle.validateDecision d i = .ok ()) :
    (∀ f ∈ ["id", "ruleId", "input", "output", "timestamp"],
      PyVal.pyHasKey d f = .ok true) ∧
    ∃ out, PyVal.pyGetItem d "output" = .ok out ∧
      PyVal.pyHasKey out "result" = .ok true := by
  simp only [DecisionBundle.validateDecision, Bind.bind, Except.bind] at h
  cases hc : DecisionBundle.checkRequired d
      ["id", "ruleId", "input", "output", "timestamp"]
      "Missing required decision field: "
      (fun f => "decisions[" ++ toString i ++ "]." ++ f) with
  | error e => simp [hc] at h
  | ok u =>
    cases u
    simp only [hc] at h
    cases hout : PyVal.pyGetItem d "output" with
    | error e => simp [hout] at h
    | ok out =>
      simp only [hout] at h
      cases hhas : PyVal.pyHasKey out "result" with
      | error e => simp [hhas] at h
      | ok b =>
        simp only [hhas] at h
        cases b with
        | false => simp [throw, throwThe, MonadExceptOf.throw] at h
        | true => exact ⟨checkRequired_ok d _ _ _ hc, out, rfl, hhas⟩

/-- Helper: `_validate_decision` fails only with path-carrying validation
errors or a `TypeError`. -/
theorem validateDecision_err (d : PyVal) (i : Nat) (e : PyExn)
    (h : DecisionBundle.validateDecision d i = .error e) :
    validationHasPath e := by
  simp only [DecisionBundle.validateDecision, Bind.bind, Except.bind] at h
  cases hc : DecisionBundle.checkRequired d
      ["id", "ruleId", "input", "output", "timestamp"]
      "Missing required decision field: "
      (fun f => "decisions[" ++ toString i ++ "]." ++ f) with
  | error e2 =>
    simp only [hc, Except.error.injEq] at h
    exact h ▸ checkRequired_err d _ _ _ e2 hc
  | ok u =>
    cases u
    simp only [hc] at h
    cases hout : PyVal.pyGetItem d "output" with
    | error e2 =>
      simp only [hout, Except.error.injEq] at h
      exact h ▸ pyGetItem_err d "output" e2 hout
    | ok out =>
      simp only [hout] at h
      cases hhas : PyVal.pyHasKey out "result" with
      | error e2 =>
        simp only [hhas, Except.error.injEq] at h
        exact h ▸ pyHasKey_err out "result" e2 hhas
      | ok b =>
        simp only [hhas] at h
        cases b with
        | true => simp at h
        | false =>
          simp [throw, throwThe, MonadExceptOf.throw] at h
          exact h ▸ validationHasPath_some _ _

/-- Helper: inversion of a successful `_validate` on a dict. -/
theorem validate_ok (kvs : List (String × PyVal))
    (h : DecisionBundle.validate (.dict kvs) = .ok ()) :
    wellFormedData kvs := by
  simp only [DecisionBundle.validate, Bind.bind, Except.bind] at h
  cases hc1 : DecisionBundle.checkRequired (.dict kvs)
      ["version", "metadata", "rules", "decisions"]
      "Missing required field: " id with
  | error e => simp [hc1] at h
  | ok u =>
    cases u
    simp only [hc1] at h
    cases hver : PyVal.pyGetItem (.dict kvs) "version" with
    | error e => simp [hver] at h
    | ok v =>
      simp only [hver] at h
      cases h10 : PyVal.pyEq v (.str "1.0") with
      | false =>
        rw [if_pos (by simp [h10])] at h
        simp [throw, throwThe, MonadExceptOf.throw] at h
      | true =>
        rw [if_neg (not_not_intro h10)] at h
        cases hmd : PyVal.pyGetItem (.dict kvs) "metadata" with
        | error e => simp [hmd, pure, Except.pure] at h
        | ok md =>
          simp only [hmd, pure, Except.pure] at h
          cases hc2 : DecisionBundle.checkRequired md
              ["id", "name", "description", "created", "jurisdiction",
               "domain"]
              "Missing required metadata field: "
              (fun f => "metadata." ++ f) with
          | error e => simp [hc2] at h
          | ok u =>
            cases u
            simp only [hc2] at h
            cases hdom : PyVal.pyGetItem md "domain" with
            | error e => simp [hdom] at h
            | ok d =>
              simp only [hdom] at h
              cases hany : (["finance", "health", "esg", "general"].any
                  (fun s => PyVal.pyEq d (.str s))) with
              | false =>
                rw [if_pos (by simp [hany])] at h
                simp [throw, throwThe, MonadExceptOf.throw] at h
              | true =>
                rw [if_neg (not_not_intro hany)] at h
                cases hrl : PyVal.pyGetItem (.dict kvs) "rules" with
                | error e => simp [hrl, pure, Except.pure] at h
                | ok rl =>
                  simp only [hrl, pure, Except.pure] at h
                  cases hri : PyVal.pyIter rl with
                  | error e => simp [hri] at h
                  | ok rlist =>
                    simp only [hri] at h
                    cases hvr : DecisionBundle.validateEach
                        DecisionBundle.validateRule rlist 0 with
                    | error e => simp [hvr] at h
                    | ok u =>
                      cases u
                      simp only [hvr] at h
                      cases hdl : PyVal.pyGetItem (.dict kvs) "decisions" with
                      | error e => simp [hdl] at h
                      | ok dl =>
                        simp only [hdl] at h
                        cases hdi : PyVal.pyIter dl with
                        | error e => simp [hdi] at h
                        | ok dlist =>
                          simp only [hdi] at h
                          refine ⟨?_, ?_, ?_, ?_, ?_⟩
                          · exact fun f hf => pyHasKey_dict_true kvs f
                              (checkRequired_ok _ _ _ _ hc1 f hf)
                          · exact ⟨v, pyGetItem_dict kvs "version" v hver, h10⟩
                          · exact ⟨md, pyGetItem_dict kvs "metadata" md hmd,
                              checkRequired_ok md _ _ _ hc2, d, hdom, hany⟩
                          · refine ⟨rl, rlist,
                              pyGetItem_dict kvs "rules" rl hrl, hri, ?_⟩
                            intro r hr
                            obtain ⟨j, hj⟩ :=
                              validateEach_ok _ rlist 0 hvr r hr
                            exact validateRule_ok r j hj
                          · refine ⟨dl, dlist,
                              pyGetItem_dict kvs "decisions" dl hdl, hdi, ?_⟩
                            intro dd hdd
                            obtain ⟨j, hj⟩ :=
                              validateEach_ok _ dlist 0 h dd hdd
                            exact validateDecision_ok dd j hj

/-- Helper: the errors of `_validate`, when validation errors, carry a
field path. -/
theorem validate_err (data : PyVal) (e : PyExn)
    (h : DecisionBundle.validate data = .error e) : validationHasPath e := by
  simp only [DecisionBundle.validate, Bind.bind, Except.bind] at h
  cases hc1 : DecisionBundle.checkRequired data
      ["version", "metadata", "rules", "decisions"]
      "Missing required field: " id with
  | error e2 =>
    simp only [hc1, Except.error.injEq] at h
    exact h ▸ checkRequired_err data _ _ _ e2 hc1
  | ok u =>
    cases u
    simp only [hc1] at h
    cases hver : PyVal.pyGetItem data "version" with
    | error e2 =>
      simp only [hver, Except.error.injEq] at h
      exact h ▸ pyGetItem_err data "version" e2 hver
    | ok v =>
      simp only [hver] at h
      cases h10 : PyVal.pyEq v (.str "1.0") with
      | false =>
        rw [if_pos (by simp [h10])] at h
        simp [throw, throwThe, MonadExceptOf.throw] at h
        exact h ▸ validationHasPath_some _ _
      | true =>
        rw [if_neg (not_not_intro h10)] at h
        cases hmd : PyVal.pyGetItem data "metadata" with
        | error e2 =>
          simp only [hmd, pure, Except.pure, Except.error.injEq] at h
          exact h ▸ pyGetItem_err data "metadata" e2 hmd
        | ok md =>
          simp only [hmd, pure, Except.pure] at h
          cases hc2 : DecisionBundle.checkRequired md
              ["id", "name", "description", "created", "jurisdiction",
               "domain"]
              "Missing required metadata field: "
              (fun f => "metadata." ++ f) with
          | error e2 =>
            simp only [hc2, Except.error.injEq] at h
            exact h ▸ checkRequired_err md _ _ _ e2 hc2
          | ok u =>
            cases u
            simp only [hc2] at h
            cases hdom : PyVal.pyGetItem md "domain" with
            | error e2 =>
              simp only [hdom, Except.error.injEq] at h
              exact h ▸ pyGetItem_err md "domain" e2 hdom
            | ok d =>
              simp only [hdom] at h
              cases hany : (["finance", "health", "esg", "general"].any
                  (fun s => PyVal.pyEq d (.str s))) with
              | false =>
                rw [if_pos (by simp [hany])] at h
                simp [throw, throwThe, MonadExceptOf.throw] at h
                exact h ▸ validationHasPath_some _ _
              | true =>
                rw [if_neg (not_not_intro hany)] at h
                cases hrl : PyVal.pyGetItem data "rules" with
                | error e2 =>
                  simp only [hrl, pure, Except.pure, Except.error.injEq] at h
                  exact h ▸ pyGetItem_err data "rules" e2 hrl
                | ok rl =>
                  simp only [hrl, pure, Except.pure] at h
                  cases hri : PyVal.pyIter rl with
                  | error e2 =>
                    simp only [hri, Except.error.injEq] at h
                    exact h ▸ pyIter_err rl e2 hri
                  | ok rlist =>
                    simp only [hri] at h
                    cases hvr : DecisionBundle.validateEach
                        DecisionBundle.validateRule rlist 0 with
                    | error e2 =>
                      simp only [hvr, Except.error.injEq] at h
                      exact h ▸ validateEach_err DecisionBundle.validateRule
                        validateRule_err rlist 0 e2 hvr
                    | ok u =>
                      cases u
                      simp only [hvr] at h
                      cases hdl : PyVal.pyGetItem data "decisions" with
                      | error e2 =>
                        simp only [hdl, Except.error.injEq] at h
                        exact h ▸ pyGetItem_err data "decisions" e2 hdl
                      | ok dl =>
                        simp only [hdl] at h
                        cases hdi : PyVal.pyIter dl with
                        | error e2 =>
                          simp only [hdi, Except.error.injEq] at h
                          exact h ▸ pyIter_err dl e2 hdi
                        | ok dlist =>
                          simp only [hdi] at h
                          exact validateEach_err DecisionBundle.validateDecision
                            validateDecision_err dlist 0 e h

/-- Helper: a present key subscripts successfully on a dict. -/
theorem dictGet_present (kvs : List (String × PyVal)) (k : String)
    (h : (PyVal.dictGet kvs k).isSome = true) :
    ∃ w, PyVal.dictGet kvs k = some w ∧
      PyVal.pyGetItem (.dict kvs) k = .ok w := by
  cases hg : PyVal.dictGet kvs k with
  | none => rw [hg] at h; simp at h
  | some w => exact ⟨w, rfl, by simp [PyVal.pyGetItem, hg]⟩

/-- Helper: the required-field check on a dict fails only with a validation
error carrying a path (`in` never raises on a dict). -/
theorem checkRequired_dict_err (kvs : List (String × PyVal)) :
    ∀ (fields : List String) (pre : String) (mk : String → String) (e : PyExn),
    DecisionBundle.checkRequired (.dict kvs) fields pre mk = .error e →
    ∃ m p, e = .validation m (some p) := by
  intro fields
  induction fields with
  | nil => intro pre mk e h; simp [DecisionBundle.checkRequired] at h
  | cons f0 rest ih =>
    intro pre mk e h
    simp only [DecisionBundle.checkRequired, PyVal.pyHasKey, Bind.bind,
      Except.bind] at h
    cases hs : (PyVal.dictGet kvs f0).isSome with
    | true => simp only [hs, if_true] at h; exact ih pre mk e h
    | false =>
      simp [hs, throw, throwThe, MonadExceptOf.throw] at h
      exact ⟨_, _, h.symm⟩

/-- Helper: `_validate_rule` on a dict rule fails only with a validation
error carrying a path. -/
theorem validateRule_dict_err (rkvs : List (String × PyVal)) (i : Nat)
    (e : PyExn)
    (h : DecisionBundle.validateRule (.dict rkvs) i = .error e) :
    ∃ m p, e = .validation m (some p) := by
  simp only [DecisionBundle.validateRule, Bind.bind, Except.bind] at h
  cases hc : DecisionBundle.checkRequired (.dict rkvs)
      ["id", "name", "type", "definition"] "Missing required rule field: "
      (fun f => "rules[" ++ toString i ++ "]." ++ f) with
  | error e2 =>
    simp only [hc, Except.error.injEq] at h
    exact h ▸ checkRequired_dict_err rkvs _ _ _ e2 hc
  | ok u =>
    cases u
    simp only [hc] at h
    obtain ⟨t, _, hgt⟩ := dictGet_present rkvs "type"
      (pyHasKey_dict_true rkvs "type"
        (checkRequired_ok _ _ _ _ hc "type" (by simp)))
    simp only [hgt] at h
    cases hany : (["dsl", "expression", "decision_table",
        "decision_tree"].any (fun s => PyVal.pyEq t (.str s))) with
    | true => simp [hany] at h
    | false =>
      simp [hany, throw, throwThe, MonadExceptOf.throw] at h
      exact ⟨_, _, h.symm⟩

/-- Helper: `_validate_decision` on a dict decision whose `output` value is
a dict fails only with a validation error carrying a path. -/
theorem validateDecision_dict_err (dkvs : List (String × PyVal)) (i : Nat)
    (e : PyExn)
    (hout : ∀ out, PyVal.dictGet dkvs "output" = some out →
      ∃ okvs, out = .dict okvs)
    (h : DecisionBundle.validateDecision (.dict dkvs) i = .error e) :
    ∃ m p, e = .validation m (some p) := by
  simp only [DecisionBundle.validateDecision, Bind.bind, Except.bind] at h
  cases hc : DecisionBundle.checkRequired (.dict dkvs)
      ["id", "ruleId", "input", "output", "timestamp"]
      "Missing required decision field: "
      (fun f => "decisions[" ++ toString i ++ "]." ++ f) with
  | error e2 =>
    simp only [hc, Except.error.injEq] at h
    exact h ▸ checkRequired_dict_err dkvs _ _ _ e2 hc
  | ok u =>
    cases u
    simp only [hc] at h
    obtain ⟨out, hdo, hgo⟩ := dictGet_present dkvs "output"
      (pyHasKey_dict_true dkvs "output"
        (checkRequired_ok _ _ _ _ hc "output" (by simp)))
    obtain ⟨okvs, hoeq⟩ := hout out hdo
    subst hoeq
    simp only [hgo, PyVal.pyHasKey] at h
    cases hs : (PyVal.dictGet okvs "result").isSome with
    | true => simp [hs] at h
    | false =>
      simp [hs, throw, throwThe, MonadExceptOf.throw] at h
      exact ⟨_, _, h.symm⟩

/-- Helper: the enumeration loop only raises validation-with-path errors
when its body does. -/
theorem validateEach_exn (f : PyVal → Nat → Except PyExn Unit) :
    ∀ (l : List PyVal),
    (∀ x ∈ l, ∀ (j : Nat) (e2 : PyExn), f x j = .error e2 →
      ∃ m p, e2 = .validation m (some p)) →
    ∀ (i : Nat) (e : PyExn),
    DecisionBundle.validateEach f l i = .error e →
    ∃ m p, e = .validation m (some p) := by
  intro l
  induction l with
  | nil => intro _ i e h; simp [DecisionBundle.validateEach] at h
  | cons x0 rest ih =>
    intro hf i e h
    simp only [DecisionBundle.validateEach, Bind.bind, Except.bind] at h
    cases hr : f x0 i with
    | error e2 =>
      simp only [hr, Except.error.injEq] at h
      exact h ▸ hf x0 (List.mem_cons_self x0 rest) i e2 hr
    | ok u =>
      cases u
      simp only [hr] at h
      exact ih (fun x hx => hf x (List.mem_cons_of_mem x0 hx)) (i + 1) e h

/-- Helper: on shaped data, `_validate` fails only with a validation error
carrying a field path. -/
theorem validate_shaped_err (kvs : List (String × PyVal))
    (hsh : shapedData kvs) (e : PyExn)
    (h : DecisionBundle.validate (.dict kvs) = .error e) :
    ∃ m p, e = .validation m (some p) := by
  obtain ⟨hmd, hrl, hdl⟩ := hsh
  simp only [DecisionBundle.validate, Bind.bind, Except.bind] at h
  cases hc1 : DecisionBundle.checkRequired (.dict kvs)
      ["version", "metadata", "rules", "decisions"]
      "Missing required field: " id with
  | error e2 =>
    simp only [hc1, Except.error.injEq] at h
    exact h ▸ checkRequired_dict_err kvs _ _ _ e2 hc1
  | ok u =>
    cases u
    simp only [hc1] at h
    obtain ⟨v, _, hgv⟩ := dictGet_present kvs "version"
      (pyHasKey_dict_true kvs "version"
        (checkRequired_ok _ _ _ _ hc1 "version" (by simp)))
    simp only [hgv] at h
    cases h10 : PyVal.pyEq v (.str "1.0") with
    | false =>
      rw [if_pos (by simp [h10])] at h
      simp [throw, throwThe, MonadExceptOf.throw] at h
      exact ⟨_, _, h.symm⟩
    | true =>
      rw [if_neg (not_not_intro h10)] at h
      obtain ⟨md, hdmd, hgmd⟩ := dictGet_present kvs "metadata"
        (pyHasKey_dict_true kvs "metadata"
          (checkRequired_ok _ _ _ _ hc1 "metadata" (by simp)))
      obtain ⟨mkvs, hmeq⟩ := hmd md hdmd
      subst hmeq
      simp only [hgmd, pure, Except.pure] at h
      cases hc2 : DecisionBundle.checkRequired (.dict mkvs)
          ["id", "name", "description", "created", "jurisdiction", "domain"]
          "Missing required metadata field: " (fun f => "metadata." ++ f) with
      | error e2 =>
        simp only [hc2, Except.error.injEq] at h
        exact h ▸ checkRequired_dict_err mkvs _ _ _ e2 hc2
      | ok u =>
        cases u
        simp only [hc2] at h
        obtain ⟨d, _, hgd⟩ := dictGet_present mkvs "domain"
          (pyHasKey_dict_true mkvs "domain"
            (checkRequired_ok _ _ _ _ hc2 "domain" (by simp)))
        simp only [hgd] at h
        cases hany : (["finance", "health", "esg", "general"].any
            (fun s => PyVal.pyEq d (.str s))) with
        | false =>
          rw [if_pos (by simp [hany])] at h
          simp [throw, throwThe, MonadExceptOf.throw] at h
          exact ⟨_, _, h.symm⟩
        | true =>
          rw [if_neg (not_not_intro hany)] at h
          obtain ⟨rl, hdrl, hgrl⟩ := dictGet_present kvs "rules"
            (pyHasKey_dict_true kvs "rules"
              (checkRequired_ok _ _ _ _ hc1 "rules" (by simp)))
          obtain ⟨rlist, hrleq, hrdicts⟩ := hrl rl hdrl
          subst hrleq
          simp only [hgrl, pure, Except.pure, PyVal.pyIter] at h
          cases hvr : DecisionBundle.validateEach
              DecisionBundle.validateRule rlist 0 with
          | error e2 =>
            simp only [hvr, Except.error.injEq] at h
            have hexn : ∃ m p, e2 = PyExn.validation m (some p) := by
              refine validateEach_exn DecisionBundle.validateRule rlist
                ?_ 0 e2 hvr
              intro x hx j e3 hx3
              obtain ⟨rkvs, hxeq⟩ := hrdicts x hx
              subst hxeq
              exact validateRule_dict_err rkvs j e3 hx3
            exact h ▸ hexn
          | ok u =>
            cases u
            simp only [hvr] at h
            obtain ⟨dl, hddl, hgdl⟩ := dictGet_present kvs "decisions"
              (pyHasKey_dict_true kvs "decisions"
                (checkRequired_ok _ _ _ _ hc1 "decisions" (by simp)))
            obtain ⟨dlist, hdleq, hddicts⟩ := hdl dl hddl
            subst hdleq
            simp only [hgdl, PyVal.pyIter] at h
            refine validateEach_exn DecisionBundle.validateDecision dlist
              ?_ 0 e h
            intro x hx j e3 hx3
            obtain ⟨dkvs, hxeq, hxout⟩ := hddicts x hx
            subst hxeq
            exact validateDecision_dict_err dkvs j e3 hxout hx3

/-- C9: the `DecisionBundle` constructor runs `_validate` on the raw data
before anything else can happen — it stores the data unchanged (first
conjunct) and never touches a rule engine, so the check precedes any rule
execution.  On dict-shaped data a successful construction implies every
condition of the claim (second conjunct); whenever construction fails with
a `ValidationException` that exception carries a field path (third
conjunct); and on shaped data — dict metadata, rules a list of dicts,
decisions a list of dicts with dict `output` values — any violation of the
validated conditions makes construction fail with a `ValidationException`
carrying a field path (fourth conjunct: this covers a missing top-level,
metadata, rule, or decision field, a version other than `"1.0"`, a domain
outside the enum, a rule type outside the allowed set, and a missing
`output.result`, each of which negates a conjunct of `wellFormedData`). -/
theorem C9_confirmed :
    (∀ (data : PyVal) (b : DecisionBundle.Bundle),
      DecisionBundle.construct data = .ok b → b.data = data) ∧
    (∀ (kvs : List (String × PyVal)) (b : DecisionBundle.Bundle),
      DecisionBundle.construct (.dict kvs) = .ok b → wellFormedData kvs) ∧
    (∀ (data : PyVal) (m : String) (fld : Option String),
      DecisionBundle.construct data = .error (.validation m fld) →
      fld.isSome = true) ∧
    (∀ (kvs : List (String × PyVal)), shapedData kvs →
      ¬ wellFormedData kvs →
      ∃ m p, DecisionBundle.construct (.dict kvs) =
        .error (.validation m (some p))) := by
  refine ⟨?_, ?_, ?_, ?_⟩
  · intro data b h
    cases hval : DecisionBundle.validate data with
    | error e =>
      simp [DecisionBundle.construct, Bind.bind, Except.bind, hval] at h
    | ok u =>
      cases u
      simp only [DecisionBundle.construct, Bind.bind, Except.bind, hval,
        pure, Except.pure, Except.ok.injEq] at h
      rw [← h]
  · intro kvs b h
    cases hval : DecisionBundle.validate (.dict kvs) with
    | error e =>
      simp [DecisionBundle.construct, Bind.bind, Except.bind, hval] at h
    | ok u =>
      cases u
      exact validate_ok kvs hval
  · intro data m fld h
    cases hval : DecisionBundle.validate data with
    | ok u =>
      cases u
      simp [DecisionBundle.construct, Bind.bind, Except.bind, hval,
        pure, Except.pure] at h
    | error e =>
      simp only [DecisionBundle.construct, Bind.bind, Except.bind, hval,
        Except.error.injEq] at h
      exact validate_err data e hval m fld h
  · intro kvs hsh hnw
    cases hval : DecisionBundle.validate (.dict kvs) with
    | ok u =>
      cases u
      exact absurd (validate_ok kvs hval) hnw
    | error e =>
      obtain ⟨m, p, he⟩ := validate_shaped_err kvs hsh e hval
      subst he
      exact ⟨m, p, by
        simp [DecisionBundle.construct, Bind.bind, Except.bind, hval]⟩

/-- The metadata, rule and decision dicts of the C9 witness bundles. -/
def c9Meta : List (String × PyVal) :=
  [("id", .str "m1"), ("name", .str "bundle"), ("description", .str "demo"),
   ("created", .str "2024-01-01"), ("jurisdiction", .str "EU"),
   ("domain", .str "finance")]

def c9RuleKvs : List (String × PyVal) :=
  [("id", .str "r1"), ("name", .str "rule one"), ("type", .str "dsl"),
   ("definition", .str "WHEN x = 1 THEN MUST y = 2")]

def c9DecKvs : List (String × PyVal) :=
  [("id", .str "d1"), ("ruleId", .str "r1"), ("input", .dict []),
   ("output", .dict [("result", .bool true)]),
   ("timestamp", .str "2024-01-01T00:00:00+00:00")]

/-- A concrete well-formed bundle for the C9 witness. -/
def c9GoodKvs : List (String × PyVal) :=
  [("version", .str "1.0"), ("metadata", .dict c9Meta),
   ("rules", .list [.dict c9RuleKvs]), ("decisions", .list [.dict c9DecKvs])]

/-- The same bundle with the unsupported version `"2.0"`. -/
def c9BadKvs : List (String × PyVal) :=
  [("version", .str "2.0"), ("metadata", .dict c9Meta),
   ("rules", .list [.dict c9RuleKvs]), ("decisions", .list [.dict c9DecKvs])]

/-- Helper for the C9 witness: the ill-versioned concrete bundle is
shaped. -/
theorem c9_shaped : shapedData c9BadKvs := by
  refine ⟨?_, ?_, ?_⟩
  · intro md hmd
    have h2 : (some (PyVal.dict c9Meta) : Option PyVal) = some md := hmd
    injection h2 with h3
    exact ⟨c9Meta, h3.symm⟩
  · intro rl hrl
    have h2 : (some (PyVal.list [.dict c9RuleKvs]) : Option PyVal) = some rl := hrl
    injection h2 with h3
    refine ⟨[.dict c9RuleKvs], h3.symm, ?_⟩
    intro r hr
    have hr2 : r = PyVal.dict c9RuleKvs := by simpa using hr
    exact ⟨c9RuleKvs, hr2⟩
  · intro dl hdl
    have h2 : (some (PyVal.list [.dict c9DecKvs]) : Option PyVal) = some dl := hdl
    injection h2 with h3
    refine ⟨[.dict c9DecKvs], h3.symm, ?_⟩
    intro d hd
    have hd2 : d = PyVal.dict c9DecKvs := by simpa using hd
    refine ⟨c9DecKvs, hd2, ?_⟩
    intro out ho
    have ho2 : (some (PyVal.dict [("result", PyVal.bool true)]) : Option PyVal) =
        some out := ho
    injection ho2 with ho3
    exact ⟨[("result", PyVal.bool true)], ho3.symm⟩

/-- C9 witness: the well-formed bundle constructs successfully, so it enjoys
every validated property; the same bundle with version `"2.0"` fails on
construction with a `ValidationException` carrying a field path. -/
theorem C9_confirmed_witness :
    wellFormedData c9GoodKvs ∧
    ∃ m p, DecisionBundle.construct (.dict c9BadKvs) =
      .error (.validation m (some p)) :=
  ⟨C9_confirmed.2.1 c9GoodKvs ⟨.dict c9GoodKvs⟩ (by rfl),
   C9_confirmed.2.2.2 c9BadKvs c9_shaped (by
    intro hw
    obtain ⟨_, ⟨v, hv, he⟩, _⟩ := hw
    have hv2 : (some (PyVal.str "2.0") : Option PyVal) = some v := hv
    injection hv2 with h3
    rw [← h3] at he
    exact absurd he (by decide))⟩

end GB
